import Mathlib

/-!
Verification development for the `trace-recorder-parser` library.

The definitions below are a shallow embedding of the Rust source:
machine integers are modeled as `Nat` (with explicit `% 2^w` or
saturation where the source wraps or saturates), fallible code returns
`Except`/`Option`, and stateful decoders are explicit state-passing
functions.  Each definition names the Rust item it embeds.
-/

namespace TraceRecorder

/-- 2^32, the modulus of the `u32` machine integers used throughout the source. -/
def U32_MOD : Nat := 4294967296

/-- `u32::MAX`, the saturation bound of `u32::saturating_add`. -/
def U32_MAX : Nat := 4294967295

/-- `Heap` from `src/types.rs` (fields `current`, `high_water_mark`, `max`, all `u32`). -/
structure Heap where
  current : Nat
  high_water_mark : Nat
  max : Nat
  deriving Repr, DecidableEq

/-- `Heap::default()`: all fields zero. -/
def Heap.zero : Heap := ⟨0, 0, 0⟩

/-- `Heap::handle_alloc` from `src/types.rs`:
`current = current.saturating_add(size); if current > high_water_mark { high_water_mark = current }`. -/
def Heap.handle_alloc (h : Heap) (size : Nat) : Heap :=
  let current := min (h.current + size) U32_MAX
  if h.high_water_mark < current then
    { h with current := current, high_water_mark := current }
  else
    { h with current := current }

/-- `Heap::handle_free` from `src/types.rs`: `current = current.saturating_sub(size)`
(`Nat` subtraction is exactly `u32::saturating_sub` on in-range values). -/
def Heap.handle_free (h : Heap) (size : Nat) : Heap :=
  { h with current := h.current - size }

/-- One heap-accounting operation: the argument of a `handle_alloc` or `handle_free` call. -/
inductive HeapOp where
  | alloc (size : Nat)
  | free (size : Nat)
  deriving Repr, DecidableEq

/-- Apply one operation to a heap. -/
def Heap.step (h : Heap) : HeapOp → Heap
  | .alloc size => h.handle_alloc size
  | .free size => h.handle_free size

/-- Run a sequence of alloc/free calls. -/
def Heap.run (h : Heap) : List HeapOp → Heap
  | [] => h
  | op :: ops => (h.step op).run ops

/-- The successive values taken by the `current` field while running `ops` from `h`
(one entry per operation). -/
def Heap.currents (h : Heap) : List HeapOp → List Nat
  | [] => []
  | op :: ops => (h.step op).current :: (h.step op).currents ops

/-- Signed running total of the operation sizes: `Σ alloc sizes − Σ free sizes`,
written as the spec computes it (over `Int`). -/
def HeapOp.signedSum : List HeapOp → Int
  | [] => 0
  | .alloc s :: ops => (s : Int) + HeapOp.signedSum ops
  | .free s :: ops => -(s : Int) + HeapOp.signedSum ops

example : (Heap.run Heap.zero [.alloc 5, .free 10, .alloc 5]).current = 5 := by decide
example : (Heap.run Heap.zero [.alloc 5, .free 10, .alloc 5]).high_water_mark = 5 := by decide
example : HeapOp.signedSum [.alloc 5, .free 10, .alloc 5] = 0 := by decide

/-- `TrackingEventCounter` from `src/streaming/event/mod.rs` (`count: u16`,
`rollovers: u32`).  `rollovers` is modeled as a plain `Nat`: the source increments
it with `+= 1`, which is exact while the value stays below `u32::MAX` (overflow of
the rollover counter is a panic in the source, not a defined behavior). -/
structure TrackingEventCounter where
  count : Nat
  rollovers : Nat
  deriving Repr, DecidableEq

/-- `TrackingEventCounter::count`: `rollovers << 16 | count`. -/
def TrackingEventCounter.count48 (tec : TrackingEventCounter) : Nat :=
  tec.rollovers <<< 16 ||| tec.count

/-- `TrackingEventCounter::set_initial_count`. -/
def TrackingEventCounter.set_initial_count (count : Nat) : TrackingEventCounter :=
  ⟨count, 0⟩

/-- `TrackingEventCounter::update` from `src/streaming/event/mod.rs`.  Takes the
new (16-bit) wire count, returns the updated counter and the reported dropped-event
count (`None` when the combined count advanced by exactly one). -/
def TrackingEventCounter.update (tec : TrackingEventCounter) (event_count : Nat) :
    TrackingEventCounter × Option Nat :=
  let prev_count := tec.count48
  let rollovers := if event_count ≤ tec.count then tec.rollovers + 1 else tec.rollovers
  let tec' : TrackingEventCounter := ⟨event_count, rollovers⟩
  let diff := tec'.count48 - prev_count
  (tec', if diff ≠ 1 then some (diff - 1) else none)

/-- Feed a list of absolute event counts to the counter, each truncated to its
16-bit wire representation as the streaming protocol does; returns the final
counter state and the total of all dropped counts reported along the way. -/
def TrackingEventCounter.feedAbs (tec : TrackingEventCounter) :
    List Nat → TrackingEventCounter × Nat
  | [] => (tec, 0)
  | c :: cs =>
    let s1 := tec.update (c % 65536)
    let s2 := s1.1.feedAbs cs
    (s2.1, (s1.2.getD 0) + s2.2)

example :
    ((TrackingEventCounter.set_initial_count 0).feedAbs [10, 12, 13]).2 = 10 := by decide
example :
    ((TrackingEventCounter.set_initial_count 10).feedAbs [10]).2 = 65535 := by decide

/-- `StreamingInstant` from `src/time.rs` (`lower: u32`, `upper: u32`).  `upper`
is modeled as a plain `Nat`: the source increments it with `+= 1`, exact while the
value stays below `u32::MAX`. -/
structure StreamingInstant where
  lower : Nat
  upper : Nat
  deriving Repr, DecidableEq

/-- `StreamingInstant::zero`. -/
def StreamingInstant.zero : StreamingInstant := ⟨0, 0⟩

/-- `StreamingInstant::to_timestamp`: `upper << 32 | lower`. -/
def StreamingInstant.to_timestamp (si : StreamingInstant) : Nat :=
  si.upper <<< 32 ||| si.lower

/-- `StreamingInstant::elapsed` from `src/time.rs`: the wire timestamp is truncated
to 32 bits (`now as u32`); a smaller lower sample increments the rollover counter.
Returns the produced 64-bit timestamp and the updated instant. -/
def StreamingInstant.elapsed (si : StreamingInstant) (now : Nat) : Nat × StreamingInstant :=
  let now32 := now % U32_MOD
  let upper := if now32 < si.lower then si.upper + 1 else si.upper
  let si' : StreamingInstant := ⟨now32, upper⟩
  (si'.to_timestamp, si')

/-- The sequence of 64-bit timestamps produced by feeding `ts` to `elapsed`. -/
def StreamingInstant.outputs (si : StreamingInstant) : List Nat → List Nat
  | [] => []
  | t :: ts =>
    let s := si.elapsed t
    s.1 :: s.2.outputs ts

example :
    StreamingInstant.outputs .zero [4294967290, 10] = [4294967290, 4294967306] := by decide

/-! Arithmetic view of `high << n | low` when the low part fits in `n` bits. -/

theorem lor_high_low (n : Nat) : ∀ r c : Nat, c < 2 ^ n → (r <<< n) ||| c = r * 2 ^ n + c := by
  induction n with
  | zero =>
    intro r c hc
    have : c = 0 := by omega
    subst this
    simp [Nat.shiftLeft_eq]
  | succ n ih =>
    intro r c hc
    have hs : r <<< (n + 1) = 2 * (r <<< n) := by
      simp [Nat.shiftLeft_eq, Nat.pow_succ]
      ring
    have heven : (r <<< (n + 1)) % 2 = 0 := by omega
    have hiff := Nat.or_mod_two_eq_one (a := r <<< (n + 1)) (b := c)
    have hmod : ((r <<< (n + 1)) ||| c) % 2 = c % 2 := by
      rcases Nat.mod_two_eq_zero_or_one c with h2 | h2
      · have hne : ¬ ((r <<< (n + 1)) ||| c) % 2 = 1 := by
          rw [hiff]
          omega
        omega
      · have : ((r <<< (n + 1)) ||| c) % 2 = 1 := by
          rw [hiff]
          exact Or.inr h2
        omega
    have hdiv : ((r <<< (n + 1)) ||| c) / 2 = (r <<< n) ||| (c / 2) := by
      rw [Nat.or_div_two]
      congr 1
      omega
    have hrec : (r <<< n) ||| (c / 2) = r * 2 ^ n + c / 2 := by
      apply ih
      have := Nat.pow_succ 2 n
      omega
    have hX := Nat.div_add_mod ((r <<< (n + 1)) ||| c) 2
    have hc2 := Nat.div_add_mod c 2
    have hp := Nat.pow_succ 2 n
    have hgoal2 : r * 2 ^ (n + 1) = 2 * (r * 2 ^ n) := by
      rw [Nat.pow_succ]
      ring
    omega

/-! Heap accounting lemmas (claim C2). -/

theorem Heap.step_hwm (h : Heap) (op : HeapOp) (hinv : h.current ≤ h.high_water_mark) :
    (h.step op).high_water_mark = Max.max h.high_water_mark (h.step op).current ∧
      (h.step op).current ≤ (h.step op).high_water_mark := by
  cases op with
  | alloc s =>
    simp only [Heap.step, Heap.handle_alloc]
    by_cases hlt : h.high_water_mark < min (h.current + s) U32_MAX <;>
      simp [hlt] <;> omega
  | free s =>
    refine ⟨?_, ?_⟩
    · show h.high_water_mark = Max.max h.high_water_mark (h.current - s)
      omega
    · show h.current - s ≤ h.high_water_mark
      omega

theorem Heap.run_hwm (ops : List HeapOp) : ∀ h : Heap, h.current ≤ h.high_water_mark →
    (h.run ops).high_water_mark = List.foldl Max.max h.high_water_mark (h.currents ops) := by
  induction ops with
  | nil => intro h _; rfl
  | cons op ops ih =>
    intro h hinv
    obtain ⟨hmax, hinv'⟩ := Heap.step_hwm h op hinv
    simp only [Heap.run, Heap.currents, List.foldl_cons]
    rw [ih _ hinv', hmax]

theorem Heap.run_current (ops : List HeapOp) : ∀ h : Heap, h.current < U32_MOD →
    (∀ n ≤ ops.length,
        0 ≤ (h.current : Int) + HeapOp.signedSum (ops.take n) ∧
          (h.current : Int) + HeapOp.signedSum (ops.take n) < U32_MOD) →
    ((h.run ops).current : Int) = (h.current : Int) + HeapOp.signedSum ops := by
  induction ops with
  | nil => intro h _ _; simp [Heap.run, HeapOp.signedSum]
  | cons op ops ih =>
    intro h hlt hpre
    cases op with
    | alloc s =>
      have h1 := hpre 1 (by simp)
      simp only [List.take_succ_cons, List.take_zero, HeapOp.signedSum] at h1
      have hcur : (h.handle_alloc s).current = h.current + s := by
        simp only [Heap.handle_alloc]
        by_cases hlt2 : h.high_water_mark < min (h.current + s) U32_MAX <;>
          simp [hlt2] <;> simp [U32_MAX, U32_MOD] at * <;> omega
      simp only [Heap.run, Heap.step, HeapOp.signedSum]
      rw [ih (h.handle_alloc s)]
      · rw [hcur]; push_cast; ring
      · simp [U32_MAX, U32_MOD] at *; omega
      · intro n hn
        have := hpre (n + 1) (by simpa using hn)
        simp only [List.take_succ_cons, HeapOp.signedSum] at this
        rw [hcur]
        push_cast
        constructor <;> linarith [this.1, this.2]
    | free s =>
      have h1 := hpre 1 (by simp)
      simp only [List.take_succ_cons, List.take_zero, HeapOp.signedSum] at h1
      have hge : s ≤ h.current := by
        have := h1.1
        simp [HeapOp.signedSum] at this
        omega
      have hcur : (h.handle_free s).current = h.current - s := rfl
      simp only [Heap.run, Heap.step, HeapOp.signedSum]
      rw [ih (h.handle_free s)]
      · rw [hcur]; push_cast [hge]; ring
      · simp [hcur]; omega
      · intro n hn
        have := hpre (n + 1) (by simpa using hn)
        simp only [List.take_succ_cons, HeapOp.signedSum] at this
        rw [hcur]
        push_cast [hge]
        constructor <;> linarith [this.1, this.2]

/-- C2 counterexample: after `alloc 5, free 10, alloc 5` from the zero heap the
`current` field is 5, while the claimed value `max 0 (Σalloc − Σfree)` is
`max 0 (10 − 10) = 0`; the saturating per-step subtraction loses the deficit, so
`current` is not a function of the two sums. -/
theorem C2_heap_sum_counterexample :
    ¬ (((Heap.run Heap.zero [.alloc 5, .free 10, .alloc 5]).current : Int) =
        max 0 (HeapOp.signedSum [.alloc 5, .free 10, .alloc 5])) := by
  decide

/-- C2 (amended): for every sequence of `handle_alloc`/`handle_free` calls from the
zero heap, (a) whenever every prefix keeps the signed running total
`Σalloc − Σfree` within `[0, 2^32)`, the `current` field equals that total (so no
saturation occurs and the claimed formula holds), and (b) unconditionally,
`high_water_mark` equals the maximum value the `current` field took at any point
(including the initial zero). -/
theorem C2_heap_accounting (ops : List HeapOp) :
    ((∀ n ≤ ops.length,
        0 ≤ HeapOp.signedSum (ops.take n) ∧ HeapOp.signedSum (ops.take n) < U32_MOD) →
      ((Heap.run Heap.zero ops).current : Int) = HeapOp.signedSum ops) ∧
    (Heap.run Heap.zero ops).high_water_mark =
      List.foldl Max.max 0 (Heap.currents Heap.zero ops) := by
  constructor
  · intro hpre
    have := Heap.run_current ops Heap.zero (by simp [Heap.zero, U32_MOD]) ?_
    · simpa [Heap.zero] using this
    · intro n hn
      have := hpre n hn
      simp [Heap.zero]
      exact this
  · exact Heap.run_hwm ops Heap.zero (by simp [Heap.zero])

/-- C2 witness: a concrete run hitting both conjuncts of `C2_heap_accounting`. -/
theorem C2_heap_accounting_witness :
    ((Heap.run Heap.zero [.alloc 5, .free 3]).current : Int) =
        HeapOp.signedSum [.alloc 5, .free 3] ∧
    (Heap.run Heap.zero [.alloc 5, .free 3]).high_water_mark =
      List.foldl Max.max 0 (Heap.currents Heap.zero [.alloc 5, .free 3]) :=
  ⟨(C2_heap_accounting [.alloc 5, .free 3]).1 (by decide),
    (C2_heap_accounting [.alloc 5, .free 3]).2⟩

/-! Tracking event counter lemmas (claim C3). -/

theorem count48_arith (c r : Nat) (hc : c < 65536) :
    TrackingEventCounter.count48 ⟨c, r⟩ = r * 65536 + c := by
  rw [show (65536 : Nat) = 2 ^ 16 by norm_num] at *
  exact lor_high_low 16 r c hc

theorem TrackingEventCounter.update_delta (c r e : Nat)
    (hcount : c < 65536) (he : e < 65536) :
    ((⟨c, r⟩ : TrackingEventCounter).update e).1.count = e ∧
      ((⟨c, r⟩ : TrackingEventCounter).update e).2.getD 0 + 1 =
        (if e ≤ c then 65536 + e - c else e - c) := by
  refine ⟨rfl, ?_⟩
  show ((if (⟨e, if e ≤ c then r + 1 else r⟩ : TrackingEventCounter).count48 -
        (⟨c, r⟩ : TrackingEventCounter).count48 ≠ 1 then
      some ((⟨e, if e ≤ c then r + 1 else r⟩ : TrackingEventCounter).count48 -
        (⟨c, r⟩ : TrackingEventCounter).count48 - 1) else none).getD 0) + 1 = _
  rw [count48_arith c r hcount, count48_arith e _ he]
  split_ifs with h1 h2 <;> simp <;> omega

theorem TrackingEventCounter.feedAbs_spec (cs : List Nat) : ∀ (a : Nat)
    (s : TrackingEventCounter), s.count = a % 65536 →
    List.Chain (fun x y => x < y ∧ y ≤ x + 65535) a cs →
    (s.feedAbs cs).2 + cs.length + a = cs.getLastD a := by
  induction cs with
  | nil => intro a s _ _; simp [TrackingEventCounter.feedAbs]
  | cons c cs ih =>
    intro a s hcnt hchain
    rcases hchain with _ | ⟨⟨hlt, hle⟩, hchain'⟩
    have hcb : s.count < 65536 := by rw [hcnt]; exact Nat.mod_lt _ (by norm_num)
    have heb : c % 65536 < 65536 := Nat.mod_lt _ (by norm_num)
    obtain ⟨sc, sr⟩ := s
    simp only at hcnt hcb
    obtain ⟨hcnt', hdrop⟩ := TrackingEventCounter.update_delta sc sr (c % 65536) hcb heb
    have hdelta :
        (if c % 65536 ≤ sc then 65536 + c % 65536 - sc else c % 65536 - sc) =
          c - a := by
      rw [hcnt]
      have ha := Nat.div_add_mod a 65536
      have hc := Nat.div_add_mod c 65536
      split_ifs with h <;> omega
    have := ih c ((⟨sc, sr⟩ : TrackingEventCounter).update (c % 65536)).1 hcnt' hchain'
    simp only [TrackingEventCounter.feedAbs, List.getLastD_cons, List.length_cons]
    omega

/-- C3: for every monotone-modulo-u16 sequence of absolute event counts (each step
advancing by at least 1 and at most 65535), feeding the truncated wire counts to
`TrackingEventCounter::update` after `set_initial_count` makes the total of the
reported dropped counts plus the number of update calls equal the final absolute
count minus the initial one. -/
theorem C3_tracking_counter (a : Nat) (cs : List Nat)
    (hchain : List.Chain (fun x y => x < y ∧ y ≤ x + 65535) a cs) :
    ((TrackingEventCounter.set_initial_count (a % 65536)).feedAbs cs).2 + cs.length =
      cs.getLastD a - a := by
  have hlast : a ≤ cs.getLastD a := by
    induction cs generalizing a with
    | nil => simp
    | cons c cs ih =>
      rcases hchain with _ | ⟨⟨hlt, _⟩, hchain'⟩
      have := ih c hchain'
      simp only [List.getLastD_cons]
      omega
  have := TrackingEventCounter.feedAbs_spec cs a
    (TrackingEventCounter.set_initial_count (a % 65536)) rfl hchain
  omega

/-- C3 witness: a concrete monotone sequence with gaps, evaluated. -/
theorem C3_tracking_counter_witness :
    ((TrackingEventCounter.set_initial_count (65530 % 65536)).feedAbs
        [65531, 65600, 65601]).2 + 3 =
      [65531, 65600, 65601].getLastD 65530 - 65530 :=
  C3_tracking_counter 65530 [65531, 65600, 65601]
    (List.Chain.cons (by omega)
      (List.Chain.cons (by omega) (List.Chain.cons (by omega) List.Chain.nil)))

/-! Streaming instant monotonicity lemmas (claim C4). -/

theorem StreamingInstant.to_timestamp_arith (si : StreamingInstant)
    (h : si.lower < U32_MOD) : si.to_timestamp = si.upper * U32_MOD + si.lower := by
  rw [show U32_MOD = 2 ^ 32 from by norm_num [U32_MOD]] at *
  exact lor_high_low 32 si.upper si.lower h

theorem StreamingInstant.elapsed_mono (si : StreamingInstant) (t : Nat)
    (h : si.lower < U32_MOD) :
    si.to_timestamp ≤ (si.elapsed t).1 ∧
      (si.elapsed t).1 = (si.elapsed t).2.to_timestamp ∧
      (si.elapsed t).2.lower < U32_MOD := by
  have hmod : t % U32_MOD < U32_MOD := Nat.mod_lt _ (by norm_num [U32_MOD])
  refine ⟨?_, rfl, hmod⟩
  rw [show (si.elapsed t).1 = (si.elapsed t).2.to_timestamp from rfl]
  rw [StreamingInstant.to_timestamp_arith si h,
    StreamingInstant.to_timestamp_arith ((si.elapsed t).2) hmod]
  have hproj1 : (si.elapsed t).2.upper =
      if t % U32_MOD < si.lower then si.upper + 1 else si.upper := rfl
  have hproj2 : (si.elapsed t).2.lower = t % U32_MOD := rfl
  rw [hproj1, hproj2]
  split_ifs with hroll
  · have hexp : (si.upper + 1) * U32_MOD = si.upper * U32_MOD + U32_MOD := by ring
    omega
  · omega

theorem StreamingInstant.outputs_chain (ts : List Nat) : ∀ si : StreamingInstant,
    si.lower < U32_MOD →
    List.Chain (· ≤ ·) si.to_timestamp (si.outputs ts) := by
  induction ts with
  | nil => intro si _; exact List.Chain.nil
  | cons t ts ih =>
    intro si h
    obtain ⟨hle, hout, hinv⟩ := si.elapsed_mono t h
    simp only [StreamingInstant.outputs]
    exact List.Chain.cons hle (hout ▸ ih (si.elapsed t).2 hinv)

/-- C4: for every sequence of wire timestamps fed to `StreamingInstant::elapsed`
starting from `StreamingInstant::zero`, the produced 64-bit timestamps are
monotonic non-decreasing. -/
theorem C4_streaming_instant_monotone (ts : List Nat) :
    List.Chain' (· ≤ ·) (StreamingInstant.outputs .zero ts) :=
  List.Chain'.tail
    (show List.Chain' (· ≤ ·)
        (StreamingInstant.to_timestamp .zero :: StreamingInstant.outputs .zero ts) from
      StreamingInstant.outputs_chain ts .zero (by norm_num [StreamingInstant.zero, U32_MOD]))

/-! Kernel version decoding (claim C6), from `src/types.rs`. -/

/-- `KernelPortIdentity` from `src/types.rs`. -/
inductive KernelPortIdentity where
  | freeRtos
  | zephyr
  | threadX
  | unknown
  deriving Repr, DecidableEq

/-- `Endianness` from `src/types.rs`. -/
inductive Endianness where
  | little
  | big
  deriving Repr, DecidableEq

/-- `KernelVersion` from `src/types.rs`: the two raw header bytes (`[u8; 2]`). -/
structure KernelVersion where
  b0 : Nat
  b1 : Nat
  deriving Repr, DecidableEq

/-- `KernelVersion::join_outer_nibbles`: `(bytes[0] & 0x0F) | (bytes[1] & 0xF0)`. -/
def KernelVersion.join_outer_nibbles (kv : KernelVersion) : Nat :=
  (kv.b0 &&& 0x0F) ||| (kv.b1 &&& 0xF0)

/-- `KernelVersion::join_inner_nibbles`: `(bytes[0] >> 4) | ((bytes[1] & 0x0F) << 4)`. -/
def KernelVersion.join_inner_nibbles (kv : KernelVersion) : Nat :=
  (kv.b0 >>> 4) ||| ((kv.b1 &&& 0x0F) <<< 4)

/-- The inner `match identity` of `KernelVersion::port_identity`; an `Except.error`
carries the two raw bytes as `InvalidKernelVersion` does. -/
def KernelVersion.matchIdentity (kv : KernelVersion) (identity : Nat) :
    Except (Nat × Nat) KernelPortIdentity :=
  if identity = 0x11 then .ok .freeRtos
  else if identity = 0x99 then .ok .zephyr
  else if identity = 0xEE then .ok .threadX
  else .error (kv.b0, kv.b1)

/-- `KernelVersion::port_identity` from `src/types.rs`: the Rust
`match (inner, outer) { (0xAA, identity) | (identity, 0xAA) => ... }` tries the
inner pair first. -/
def KernelVersion.port_identity (kv : KernelVersion) :
    Except (Nat × Nat) KernelPortIdentity :=
  if kv.join_inner_nibbles = 0xAA then kv.matchIdentity kv.join_outer_nibbles
  else if kv.join_outer_nibbles = 0xAA then kv.matchIdentity kv.join_inner_nibbles
  else .error (kv.b0, kv.b1)

/-- `KernelVersion::endianness` from `src/types.rs`. -/
def KernelVersion.endianness (kv : KernelVersion) : Except (Nat × Nat) Endianness :=
  if kv.join_inner_nibbles = 0xAA then .ok .little
  else if kv.join_outer_nibbles = 0xAA then .ok .big
  else .error (kv.b0, kv.b1)

deriving instance DecidableEq for Except

example : KernelVersion.port_identity ⟨0xA1, 0x1A⟩ = .ok .freeRtos := by decide
example : KernelVersion.endianness ⟨0xA1, 0x1A⟩ = .ok .little := by decide
example : KernelVersion.port_identity ⟨0x9A, 0xA9⟩ = .ok .zephyr := by decide
example : KernelVersion.endianness ⟨0x9A, 0xA9⟩ = .ok .big := by decide

set_option maxRecDepth 100000

theorem land15_fin : ∀ b : Fin 256, b.val &&& 15 = b.val % 16 := by decide

theorem land240_fin : ∀ b : Fin 256, b.val &&& 240 = b.val / 16 * 16 := by decide

theorem shr4_fin : ∀ b : Fin 256, b.val >>> 4 = b.val / 16 := by decide

theorem land15_eq (b : Nat) (h : b < 256) : b &&& 15 = b % 16 := land15_fin ⟨b, h⟩

theorem land240_eq (b : Nat) (h : b < 256) : b &&& 240 = b / 16 * 16 := land240_fin ⟨b, h⟩

theorem shr4_eq (b : Nat) (h : b < 256) : b >>> 4 = b / 16 := shr4_fin ⟨b, h⟩

theorem lor_mul16 (r c : Nat) (h : c < 16) : r * 16 ||| c = r * 16 + c := by
  have h2 := lor_high_low 4 r c (by omega)
  rw [Nat.shiftLeft_eq] at h2
  norm_num at h2
  exact h2

theorem KernelVersion.join_inner_arith (b0 b1 : Nat) (h0 : b0 < 256) (h1 : b1 < 256) :
    KernelVersion.join_inner_nibbles ⟨b0, b1⟩ = b1 % 16 * 16 + b0 / 16 :=
  calc KernelVersion.join_inner_nibbles ⟨b0, b1⟩
      = b1 % 16 * 16 ||| b0 / 16 := by
        show b0 >>> 4 ||| (b1 &&& 15) <<< 4 = _
        rw [shr4_eq b0 h0, land15_eq b1 h1, Nat.lor_comm, Nat.shiftLeft_eq]
    _ = b1 % 16 * 16 + b0 / 16 := lor_mul16 _ _ (by omega)

theorem KernelVersion.join_outer_arith (b0 b1 : Nat) (h0 : b0 < 256) (h1 : b1 < 256) :
    KernelVersion.join_outer_nibbles ⟨b0, b1⟩ = b1 / 16 * 16 + b0 % 16 :=
  calc KernelVersion.join_outer_nibbles ⟨b0, b1⟩
      = b1 / 16 * 16 ||| b0 % 16 := by
        show b0 &&& 15 ||| (b1 &&& 240) = _
        rw [land15_eq b0 h0, land240_eq b1 h1, Nat.lor_comm]
    _ = b1 / 16 * 16 + b0 % 16 := lor_mul16 _ _ (by omega)

/-- The six valid kernel-version byte patterns (port, endianness sentinel placement). -/
def isValidKernelVersionPattern (b0 b1 : Nat) : Prop :=
  (b0 = 0xA1 ∧ b1 = 0x1A) ∨ (b0 = 0x1A ∧ b1 = 0xA1) ∨
  (b0 = 0xA9 ∧ b1 = 0x9A) ∨ (b0 = 0x9A ∧ b1 = 0xA9) ∨
  (b0 = 0xAE ∧ b1 = 0xEA) ∨ (b0 = 0xEA ∧ b1 = 0xAE)

/-- C6 counterexample: the bytes `[0xAB, 0xBA]` join to inner `0xAA` and outer
`0xBB`; this is not one of the six valid patterns, and `port_identity` fails with
`InvalidKernelVersion` — yet `endianness` succeeds with `Little`, so it is not true
that both accessors fail on every pattern outside the six. -/
theorem C6_kernel_version_counterexample :
    KernelVersion.endianness ⟨0xAB, 0xBA⟩ = .ok .little ∧
      KernelVersion.port_identity ⟨0xAB, 0xBA⟩ = .error (0xAB, 0xBA) ∧
      ¬ isValidKernelVersionPattern 0xAB 0xBA := by
  refine ⟨by decide, by decide, by simp [isValidKernelVersionPattern]⟩

/-- C6 (amended): full characterization of `KernelVersion::port_identity` and
`KernelVersion::endianness` over all 2-byte patterns.  The six valid patterns
decode to the expected port, and `port_identity` fails with
`InvalidKernelVersion(bytes)` on every other pattern; `endianness`, however, fails
(with the same error value) exactly when neither the inner nor the outer joined
byte equals the `0xAA` sentinel — when a sentinel is present but the other joined
byte selects no port, `endianness` still succeeds while `port_identity` fails. -/
theorem C6_kernel_version (b0 b1 : Nat) (h0 : b0 < 256) (h1 : b1 < 256) :
    (KernelVersion.port_identity ⟨b0, b1⟩ = .ok .freeRtos ↔
      ((b0 = 0xA1 ∧ b1 = 0x1A) ∨ (b0 = 0x1A ∧ b1 = 0xA1))) ∧
    (KernelVersion.port_identity ⟨b0, b1⟩ = .ok .zephyr ↔
      ((b0 = 0xA9 ∧ b1 = 0x9A) ∨ (b0 = 0x9A ∧ b1 = 0xA9))) ∧
    (KernelVersion.port_identity ⟨b0, b1⟩ = .ok .threadX ↔
      ((b0 = 0xAE ∧ b1 = 0xEA) ∨ (b0 = 0xEA ∧ b1 = 0xAE))) ∧
    (KernelVersion.port_identity ⟨b0, b1⟩ = .error (b0, b1) ↔
      ¬ isValidKernelVersionPattern b0 b1) ∧
    (KernelVersion.endianness ⟨b0, b1⟩ = .ok .little ↔
      KernelVersion.join_inner_nibbles ⟨b0, b1⟩ = 0xAA) ∧
    (KernelVersion.endianness ⟨b0, b1⟩ = .ok .big ↔
      (KernelVersion.join_inner_nibbles ⟨b0, b1⟩ ≠ 0xAA ∧
        KernelVersion.join_outer_nibbles ⟨b0, b1⟩ = 0xAA)) ∧
    (KernelVersion.endianness ⟨b0, b1⟩ = .error (b0, b1) ↔
      (KernelVersion.join_inner_nibbles ⟨b0, b1⟩ ≠ 0xAA ∧
        KernelVersion.join_outer_nibbles ⟨b0, b1⟩ ≠ 0xAA)) := by
  have hin := KernelVersion.join_inner_arith b0 b1 h0 h1
  have hout := KernelVersion.join_outer_arith b0 b1 h0 h1
  by_cases hI : KernelVersion.join_inner_nibbles ⟨b0, b1⟩ = 0xAA
  · by_cases hO11 : KernelVersion.join_outer_nibbles ⟨b0, b1⟩ = 0x11
    · simp [KernelVersion.port_identity, KernelVersion.matchIdentity,
        KernelVersion.endianness, isValidKernelVersionPattern, hI, hO11] <;> omega
    · by_cases hO99 : KernelVersion.join_outer_nibbles ⟨b0, b1⟩ = 0x99
      · simp [KernelVersion.port_identity, KernelVersion.matchIdentity,
          KernelVersion.endianness, isValidKernelVersionPattern, hI, hO11, hO99] <;> omega
      · by_cases hOEE : KernelVersion.join_outer_nibbles ⟨b0, b1⟩ = 0xEE
        · simp [KernelVersion.port_identity, KernelVersion.matchIdentity,
            KernelVersion.endianness, isValidKernelVersionPattern,
            hI, hO11, hO99, hOEE] <;> omega
        · simp [KernelVersion.port_identity, KernelVersion.matchIdentity,
            KernelVersion.endianness, isValidKernelVersionPattern,
            hI, hO11, hO99, hOEE] <;> omega
  · by_cases hO : KernelVersion.join_outer_nibbles ⟨b0, b1⟩ = 0xAA
    · by_cases hI11 : KernelVersion.join_inner_nibbles ⟨b0, b1⟩ = 0x11
      · simp [KernelVersion.port_identity, KernelVersion.matchIdentity,
          KernelVersion.endianness, isValidKernelVersionPattern, hI, hO, hI11] <;> omega
      · by_cases hI99 : KernelVersion.join_inner_nibbles ⟨b0, b1⟩ = 0x99
        · simp [KernelVersion.port_identity, KernelVersion.matchIdentity,
            KernelVersion.endianness, isValidKernelVersionPattern,
            hI, hO, hI11, hI99] <;> omega
        · by_cases hIEE : KernelVersion.join_inner_nibbles ⟨b0, b1⟩ = 0xEE
          · simp [KernelVersion.port_identity, KernelVersion.matchIdentity,
              KernelVersion.endianness, isValidKernelVersionPattern,
              hI, hO, hI11, hI99, hIEE] <;> omega
          · simp [KernelVersion.port_identity, KernelVersion.matchIdentity,
              KernelVersion.endianness, isValidKernelVersionPattern,
              hI, hO, hI11, hI99, hIEE] <;> omega
    · simp [KernelVersion.port_identity, KernelVersion.matchIdentity,
        KernelVersion.endianness, isValidKernelVersionPattern, hI, hO] <;> omega

/-- C6 witness: the characterization evaluated at the concrete bytes `[0xA1, 0x1A]`. -/
theorem C6_kernel_version_witness :
    (KernelVersion.port_identity ⟨0xA1, 0x1A⟩ = .ok .freeRtos ↔
      (((0xA1 : Nat) = 0xA1 ∧ (0x1A : Nat) = 0x1A) ∨
        ((0xA1 : Nat) = 0x1A ∧ (0x1A : Nat) = 0xA1))) ∧
    (KernelVersion.port_identity ⟨0xA1, 0x1A⟩ = .ok .zephyr ↔
      (((0xA1 : Nat) = 0xA9 ∧ (0x1A : Nat) = 0x9A) ∨
        ((0xA1 : Nat) = 0x9A ∧ (0x1A : Nat) = 0xA9))) ∧
    (KernelVersion.port_identity ⟨0xA1, 0x1A⟩ = .ok .threadX ↔
      (((0xA1 : Nat) = 0xAE ∧ (0x1A : Nat) = 0xEA) ∨
        ((0xA1 : Nat) = 0xEA ∧ (0x1A : Nat) = 0xAE))) ∧
    (KernelVersion.port_identity ⟨0xA1, 0x1A⟩ = .error (0xA1, 0x1A) ↔
      ¬ isValidKernelVersionPattern 0xA1 0x1A) ∧
    (KernelVersion.endianness ⟨0xA1, 0x1A⟩ = .ok .little ↔
      KernelVersion.join_inner_nibbles ⟨0xA1, 0x1A⟩ = 0xAA) ∧
    (KernelVersion.endianness ⟨0xA1, 0x1A⟩ = .ok .big ↔
      (KernelVersion.join_inner_nibbles ⟨0xA1, 0x1A⟩ ≠ 0xAA ∧
        KernelVersion.join_outer_nibbles ⟨0xA1, 0x1A⟩ = 0xAA)) ∧
    (KernelVersion.endianness ⟨0xA1, 0x1A⟩ = .error (0xA1, 0x1A) ↔
      (KernelVersion.join_inner_nibbles ⟨0xA1, 0x1A⟩ ≠ 0xAA ∧
        KernelVersion.join_outer_nibbles ⟨0xA1, 0x1A⟩ ≠ 0xAA)) :=
  C6_kernel_version 0xA1 0x1A (by decide) (by decide)

namespace Streaming

/-- `EventCode::event_id` from `src/streaming/event/mod.rs`: `self.0 & 0x0FFF`. -/
def eventId (ec : Nat) : Nat := ec &&& 0x0FFF

/-- `EventCode::parameter_count` from `src/streaming/event/mod.rs`:
`(self.0 >> 12) & 0x0F`. -/
def parameterCount (ec : Nat) : Nat := (ec >>> 12) &&& 0x0F

/-- `EventParameterCount::MAX` from `src/streaming/event/mod.rs`. -/
def EventParameterCount.MAX : Nat := 15

/-- `BaseEvent` from `src/streaming/event/base.rs`; the fixed
`[u32; EventParameterCount::MAX]` parameter array is a list whose length is
constrained to 15 where the struct is built. -/
structure BaseEvent where
  code : Nat
  event_count : Nat
  timestamp : Nat
  parameters : List Nat
  deriving Repr, DecidableEq

/-- `BaseEvent::parameters` from `src/streaming/event/base.rs`:
`&self.parameters[..num_params]`.  A Rust slice `&arr[..n]` panics when `n`
exceeds the array length, so the embedding returns `none` in that case. -/
def BaseEvent.parametersSlice (e : BaseEvent) : Option (List Nat) :=
  if parameterCount e.code ≤ e.parameters.length then
    some (e.parameters.take (parameterCount e.code))
  else none

/-- C10: for every 16-bit event code, `EventCode::parameter_count` is at most 15
(`EventParameterCount::MAX`), so `BaseEvent::parameters` always slices within the
fixed 15-element parameter array: the slice succeeds and has exactly
`parameter_count` elements. -/
theorem C10_parameter_count_bound (e : BaseEvent) (hcode : e.code < 65536)
    (hlen : e.parameters.length = 15) :
    parameterCount e.code ≤ EventParameterCount.MAX ∧
      e.parametersSlice = some (e.parameters.take (parameterCount e.code)) ∧
      (e.parameters.take (parameterCount e.code)).length = parameterCount e.code := by
  have hle : parameterCount e.code ≤ 15 := Nat.and_le_right
  refine ⟨hle, ?_, ?_⟩
  · simp [BaseEvent.parametersSlice, hlen]
    omega
  · simp [List.length_take, hlen]
    omega

/-- C10 witness: a concrete `BaseEvent` with the maximal parameter count 15. -/
theorem C10_parameter_count_bound_witness :
    parameterCount (⟨0xF038, 7, 0, List.replicate 15 0⟩ : BaseEvent).code ≤
        EventParameterCount.MAX ∧
      (⟨0xF038, 7, 0, List.replicate 15 0⟩ : BaseEvent).parametersSlice =
        some ((⟨0xF038, 7, 0, List.replicate 15 0⟩ : BaseEvent).parameters.take
          (parameterCount (⟨0xF038, 7, 0, List.replicate 15 0⟩ : BaseEvent).code)) ∧
      ((⟨0xF038, 7, 0, List.replicate 15 0⟩ : BaseEvent).parameters.take
          (parameterCount (⟨0xF038, 7, 0, List.replicate 15 0⟩ : BaseEvent).code)).length =
        parameterCount (⟨0xF038, 7, 0, List.replicate 15 0⟩ : BaseEvent).code :=
  C10_parameter_count_bound ⟨0xF038, 7, 0, List.replicate 15 0⟩ (by decide) (by decide)

end Streaming

namespace Snapshot

/-- `DifferentialTimestamp::from_xts16` from `src/time.rs`:
`u32::from(xts_16) << 16` (the argument is a `u16`). -/
def DifferentialTimestamp.from_xts16 (xts_16 : Nat) : Nat := xts_16 <<< 16

/-- `DifferentialTimestamp::from_xts8` from `src/time.rs`:
`u32::from(xts_8) << 24 | (u32::from(xts_16) << 8)`. -/
def DifferentialTimestamp.from_xts8 (xts_8 xts_16 : Nat) : Nat :=
  (xts_8 <<< 24) ||| (xts_16 <<< 8)

/-- `DifferentialTimestamp += Dts16` from `src/time.rs`: a `checked_add` that the
source treats as a programming error on overflow (modeled as `none`). -/
def DifferentialTimestamp.addDts16 (dts v : Nat) : Option Nat :=
  if dts + v < U32_MOD then some (dts + v) else none

/-- `Timestamp += DifferentialTimestamp` from `src/time.rs`: a `checked_add` that
panics on 64-bit overflow (modeled as `none`). -/
def Timestamp.addDts (t dts : Nat) : Option Nat :=
  if t + dts < 18446744073709551616 then some (t + dts) else none

/-- The time-tracking fields of the snapshot `EventParser`
(`src/snapshot/event/parser.rs`): `accumulated_time` and `dts_for_next_event`. -/
structure EventParserState where
  accumulated_time : Nat
  dts_for_next_event : Nat
  deriving Repr, DecidableEq

/-- The `EventType::Xts16` arm of `EventParser::parse`: stores
`DifferentialTimestamp::from_xts16(xts_16)` into `dts_for_next_event` and emits
no event (`None`). -/
def EventParserState.processXts16 (s : EventParserState) (xts_16 : Nat) :
    EventParserState × Option Unit :=
  ({ s with dts_for_next_event := DifferentialTimestamp.from_xts16 xts_16 }, none)

/-- `EventParser::get_timestamp` from `src/snapshot/event/parser.rs`, for an event
carrying a 16-bit DTS: folds the DTS into `dts_for_next_event`, adds the total to
`accumulated_time`, clears `dts_for_next_event`, and returns the stamped
timestamp together with the updated state. -/
def EventParserState.get_timestamp16 (s : EventParserState) (dts : Nat) :
    Option (Nat × EventParserState) :=
  match DifferentialTimestamp.addDts16 s.dts_for_next_event dts with
  | none => none
  | some full =>
    match Timestamp.addDts s.accumulated_time full with
    | none => none
    | some t => some (t, ⟨t, 0⟩)

/-- C7: with `accumulated_time` at `0x0F`, an `Xts16` record with value `0x0003`
sets `dts_for_next_event` to `0x00030000` and emits no event; a following event
carrying 16-bit DTS `0x5FD5` folds it to `0x00035FD5`, is stamped with
`0x00035FD5 + 0x0F = 0x00035FE4`, and `dts_for_next_event` is cleared to zero. -/
theorem C7_snapshot_xts16_scenario :
    ((⟨0x0F, 0⟩ : EventParserState).processXts16 0x0003).2 = none ∧
      ((⟨0x0F, 0⟩ : EventParserState).processXts16 0x0003).1.dts_for_next_event =
        0x00030000 ∧
      DifferentialTimestamp.addDts16 0x00030000 0x5FD5 = some 0x00035FD5 ∧
      ((⟨0x0F, 0⟩ : EventParserState).processXts16 0x0003).1.get_timestamp16 0x5FD5 =
        some (0x00035FE4, ⟨0x00035FE4, 0⟩) := by
  decide

end Snapshot

namespace Streaming

/-- `EventType` for the streaming protocol, from `src/streaming/event/mod.rs`. -/
inductive EventType where
  | null
  | traceStart
  | tsConfig
  | objectName
  | taskPriority
  | taskPriorityInherit
  | taskPriorityDisinherit
  | defineIsr
  | taskCreate
  | taskCreateFailed
  | taskReady
  | taskSwitchIsrBegin
  | taskSwitchIsrResume
  | taskSwitchTaskBegin
  | taskSwitchTaskResume
  | taskActivate
  | taskDelayUntil
  | taskDelay
  | taskSuspend
  | taskResume
  | taskResumeFromIsr
  | taskNotify
  | taskNotifyWait
  | taskNotifyWaitBlock
  | taskNotifyWaitFailed
  | taskNotifyFromIsr
  | memoryAlloc
  | memoryFree
  | queueCreate
  | queueCreateFailed
  | queueSend
  | queueSendFailed
  | queueSendBlock
  | queueSendFromIsr
  | queueSendFromIsrFailed
  | queueReceive
  | queueReceiveFailed
  | queueReceiveBlock
  | queueReceiveFromIsr
  | queueReceiveFromIsrFailed
  | queuePeek
  | queuePeekFailed
  | queuePeekBlock
  | queueSendFront
  | queueSendFrontBlock
  | queueSendFrontFromIsr
  | mutexCreate
  | mutexCreateFailed
  | mutexGive
  | mutexGiveFailed
  | mutexGiveBlock
  | mutexGiveRecursive
  | mutexTake
  | mutexTakeFailed
  | mutexTakeBlock
  | mutexTakeRecursive
  | mutexTakeRecursiveBlock
  | semaphoreBinaryCreate
  | semaphoreBinaryCreateFailed
  | semaphoreCountingCreate
  | semaphoreCountingCreateFailed
  | semaphoreGive
  | semaphoreGiveFailed
  | semaphoreGiveBlock
  | semaphoreGiveFromIsr
  | semaphoreGiveFromIsrFailed
  | semaphoreTake
  | semaphoreTakeFailed
  | semaphoreTakeBlock
  | semaphoreTakeFromIsr
  | semaphoreTakeFromIsrFailed
  | semaphorePeek
  | semaphorePeekFailed
  | semaphorePeekBlock
  | timerCreate
  | timerStart
  | timerReset
  | timerStop
  | timerExpired
  | eventGroupCreate
  | eventGroupCreateFailed
  | eventGroupSync
  | eventGroupWaitBits
  | eventGroupClearBits
  | eventGroupClearBitsFromIsr
  | eventGroupSetBits
  | eventGroupSetBitsFromIsr
  | eventGroupSyncBlock
  | eventGroupWaitBitsBlock
  | eventGroupSyncFailed
  | eventGroupWaitBitsFailed
  | messageBufferCreate
  | messageBufferCreateFailed
  | messageBufferSend
  | messageBufferSendBlock
  | messageBufferSendFailed
  | messageBufferReceive
  | messageBufferReceiveBlock
  | messageBufferReceiveFailed
  | messageBufferSendFromIsr
  | messageBufferSendFromIsrFailed
  | messageBufferReceiveFromIsr
  | messageBufferReceiveFromIsrFailed
  | messageBufferReset
  | stateMachineStateCreate
  | stateMachineCreate
  | stateMachineStateChange
  | unusedStack
  | userEvent (argCount : Nat)
  | unknown (id : Nat)

/-- `EventType::from(EventId)` for the streaming protocol: the `match` on the
raw 12-bit event ID, written as the source order of arms. -/
def EventType.ofId (id : Nat) : EventType :=
  if id = 0x00 then .null
  else if id = 0x01 then .traceStart
  else if id = 0x02 then .tsConfig
  else if id = 0x03 then .objectName
  else if id = 0x04 then .taskPriority
  else if id = 0x05 then .taskPriorityInherit
  else if id = 0x06 then .taskPriorityDisinherit
  else if id = 0x07 then .defineIsr
  else if id = 0x10 then .taskCreate
  else if id = 0x40 then .taskCreateFailed
  else if id = 0x30 then .taskReady
  else if id = 0x33 then .taskSwitchIsrBegin
  else if id = 0x34 then .taskSwitchIsrResume
  else if id = 0x35 then .taskSwitchTaskBegin
  else if id = 0x36 then .taskSwitchTaskResume
  else if id = 0x37 then .taskActivate
  else if id = 0x79 then .taskDelayUntil
  else if id = 0x7a then .taskDelay
  else if id = 0x7b then .taskSuspend
  else if id = 0x7c then .taskResume
  else if id = 0x7d then .taskResumeFromIsr
  else if id = 0xc9 then .taskNotify
  else if id = 0xca then .taskNotifyWait
  else if id = 0xcb then .taskNotifyWaitBlock
  else if id = 0xcc then .taskNotifyWaitFailed
  else if id = 0xcd then .taskNotifyFromIsr
  else if id = 0x38 then .memoryAlloc
  else if id = 0x39 then .memoryFree
  else if id = 0x11 then .queueCreate
  else if id = 0x41 then .queueCreateFailed
  else if id = 0x50 then .queueSend
  else if id = 0x53 then .queueSendFailed
  else if id = 0x56 then .queueSendBlock
  else if id = 0x59 then .queueSendFromIsr
  else if id = 0x5c then .queueSendFromIsrFailed
  else if id = 0x60 then .queueReceive
  else if id = 0x63 then .queueReceiveFailed
  else if id = 0x66 then .queueReceiveBlock
  else if id = 0x69 then .queueReceiveFromIsr
  else if id = 0x6c then .queueReceiveFromIsrFailed
  else if id = 0x70 then .queuePeek
  else if id = 0x73 then .queuePeekFailed
  else if id = 0x76 then .queuePeekBlock
  else if id = 0xc0 then .queueSendFront
  else if id = 0xc2 then .queueSendFrontBlock
  else if id = 0xc3 then .queueSendFrontFromIsr
  else if id = 0x13 then .mutexCreate
  else if id = 0x43 then .mutexCreateFailed
  else if id = 0x52 then .mutexGive
  else if id = 0x55 then .mutexGiveFailed
  else if id = 0x58 then .mutexGiveBlock
  else if id = 0xc5 then .mutexGiveRecursive
  else if id = 0x62 then .mutexTake
  else if id = 0x65 then .mutexTakeFailed
  else if id = 0x68 then .mutexTakeBlock
  else if id = 0xc7 then .mutexTakeRecursive
  else if id = 0xf6 then .mutexTakeRecursiveBlock
  else if id = 0x12 then .semaphoreBinaryCreate
  else if id = 0x42 then .semaphoreBinaryCreateFailed
  else if id = 0x16 then .semaphoreCountingCreate
  else if id = 0x46 then .semaphoreCountingCreateFailed
  else if id = 0x51 then .semaphoreGive
  else if id = 0x54 then .semaphoreGiveFailed
  else if id = 0x57 then .semaphoreGiveBlock
  else if id = 0x5a then .semaphoreGiveFromIsr
  else if id = 0x5d then .semaphoreGiveFromIsrFailed
  else if id = 0x61 then .semaphoreTake
  else if id = 0x64 then .semaphoreTakeFailed
  else if id = 0x67 then .semaphoreTakeBlock
  else if id = 0x6a then .semaphoreTakeFromIsr
  else if id = 0x6d then .semaphoreTakeFromIsrFailed
  else if id = 0x71 then .semaphorePeek
  else if id = 0x74 then .semaphorePeekFailed
  else if id = 0x77 then .semaphorePeekBlock
  else if id = 0x14 then .timerCreate
  else if id = 0xa0 then .timerStart
  else if id = 0xa1 then .timerReset
  else if id = 0xa2 then .timerStop
  else if id = 0xd2 then .timerExpired
  else if id = 0x15 then .eventGroupCreate
  else if id = 0x45 then .eventGroupCreateFailed
  else if id = 0xb0 then .eventGroupSync
  else if id = 0xb1 then .eventGroupWaitBits
  else if id = 0xb2 then .eventGroupClearBits
  else if id = 0xb3 then .eventGroupClearBitsFromIsr
  else if id = 0xb4 then .eventGroupSetBits
  else if id = 0xb5 then .eventGroupSetBitsFromIsr
  else if id = 0xb6 then .eventGroupSyncBlock
  else if id = 0xb7 then .eventGroupWaitBitsBlock
  else if id = 0xb8 then .eventGroupSyncFailed
  else if id = 0xb9 then .eventGroupWaitBitsFailed
  else if id = 0x19 then .messageBufferCreate
  else if id = 0x4a then .messageBufferCreateFailed
  else if id = 0xde then .messageBufferSend
  else if id = 0xdf then .messageBufferSendBlock
  else if id = 0xe0 then .messageBufferSendFailed
  else if id = 0xe1 then .messageBufferReceive
  else if id = 0xe2 then .messageBufferReceiveBlock
  else if id = 0xe3 then .messageBufferReceiveFailed
  else if id = 0xe4 then .messageBufferSendFromIsr
  else if id = 0xe5 then .messageBufferSendFromIsrFailed
  else if id = 0xe6 then .messageBufferReceiveFromIsr
  else if id = 0xe7 then .messageBufferReceiveFromIsrFailed
  else if id = 0xe8 then .messageBufferReset
  else if id = 0xec then .stateMachineStateCreate
  else if id = 0xed then .stateMachineCreate
  else if id = 0xee then .stateMachineStateChange
  else if 0x90 ≤ id ∧ id ≤ 0x9f then .userEvent (id - 0x90)
  else if id = 0xeb then .unusedStack
  else .unknown id

/-- `EventId::from(EventType)` for the streaming protocol. -/
def EventType.toId : EventType → Nat
  | .null => 0x00
  | .traceStart => 0x01
  | .tsConfig => 0x02
  | .objectName => 0x03
  | .taskPriority => 0x04
  | .taskPriorityInherit => 0x05
  | .taskPriorityDisinherit => 0x06
  | .defineIsr => 0x07
  | .taskCreate => 0x10
  | .taskCreateFailed => 0x40
  | .taskReady => 0x30
  | .taskSwitchIsrBegin => 0x33
  | .taskSwitchIsrResume => 0x34
  | .taskSwitchTaskBegin => 0x35
  | .taskSwitchTaskResume => 0x36
  | .taskActivate => 0x37
  | .taskDelayUntil => 0x79
  | .taskDelay => 0x7a
  | .taskSuspend => 0x7b
  | .taskResume => 0x7c
  | .taskResumeFromIsr => 0x7d
  | .taskNotify => 0xc9
  | .taskNotifyWait => 0xca
  | .taskNotifyWaitBlock => 0xcb
  | .taskNotifyWaitFailed => 0xcc
  | .taskNotifyFromIsr => 0xcd
  | .memoryAlloc => 0x38
  | .memoryFree => 0x39
  | .queueCreate => 0x11
  | .queueCreateFailed => 0x41
  | .queueSend => 0x50
  | .queueSendFailed => 0x53
  | .queueSendBlock => 0x56
  | .queueSendFromIsr => 0x59
  | .queueSendFromIsrFailed => 0x5c
  | .queueReceive => 0x60
  | .queueReceiveFailed => 0x63
  | .queueReceiveBlock => 0x66
  | .queueReceiveFromIsr => 0x69
  | .queueReceiveFromIsrFailed => 0x6c
  | .queuePeek => 0x70
  | .queuePeekFailed => 0x73
  | .queuePeekBlock => 0x76
  | .queueSendFront => 0xc0
  | .queueSendFrontBlock => 0xc2
  | .queueSendFrontFromIsr => 0xc3
  | .mutexCreate => 0x13
  | .mutexCreateFailed => 0x43
  | .mutexGive => 0x52
  | .mutexGiveFailed => 0x55
  | .mutexGiveBlock => 0x58
  | .mutexGiveRecursive => 0xc5
  | .mutexTake => 0x62
  | .mutexTakeFailed => 0x65
  | .mutexTakeBlock => 0x68
  | .mutexTakeRecursive => 0xc7
  | .mutexTakeRecursiveBlock => 0xf6
  | .semaphoreBinaryCreate => 0x12
  | .semaphoreBinaryCreateFailed => 0x42
  | .semaphoreCountingCreate => 0x16
  | .semaphoreCountingCreateFailed => 0x46
  | .semaphoreGive => 0x51
  | .semaphoreGiveFailed => 0x54
  | .semaphoreGiveBlock => 0x57
  | .semaphoreGiveFromIsr => 0x5a
  | .semaphoreGiveFromIsrFailed => 0x5d
  | .semaphoreTake => 0x61
  | .semaphoreTakeFailed => 0x64
  | .semaphoreTakeBlock => 0x67
  | .semaphoreTakeFromIsr => 0x6a
  | .semaphoreTakeFromIsrFailed => 0x6d
  | .semaphorePeek => 0x71
  | .semaphorePeekFailed => 0x74
  | .semaphorePeekBlock => 0x77
  | .timerCreate => 0x14
  | .timerStart => 0xa0
  | .timerReset => 0xa1
  | .timerStop => 0xa2
  | .timerExpired => 0xd2
  | .eventGroupCreate => 0x15
  | .eventGroupCreateFailed => 0x45
  | .eventGroupSync => 0xb0
  | .eventGroupWaitBits => 0xb1
  | .eventGroupClearBits => 0xb2
  | .eventGroupClearBitsFromIsr => 0xb3
  | .eventGroupSetBits => 0xb4
  | .eventGroupSetBitsFromIsr => 0xb5
  | .eventGroupSyncBlock => 0xb6
  | .eventGroupWaitBitsBlock => 0xb7
  | .eventGroupSyncFailed => 0xb8
  | .eventGroupWaitBitsFailed => 0xb9
  | .messageBufferCreate => 0x19
  | .messageBufferCreateFailed => 0x4a
  | .messageBufferSend => 0xde
  | .messageBufferSendBlock => 0xdf
  | .messageBufferSendFailed => 0xe0
  | .messageBufferReceive => 0xe1
  | .messageBufferReceiveBlock => 0xe2
  | .messageBufferReceiveFailed => 0xe3
  | .messageBufferSendFromIsr => 0xe4
  | .messageBufferSendFromIsrFailed => 0xe5
  | .messageBufferReceiveFromIsr => 0xe6
  | .messageBufferReceiveFromIsrFailed => 0xe7
  | .messageBufferReset => 0xe8
  | .stateMachineStateCreate => 0xec
  | .stateMachineCreate => 0xed
  | .stateMachineStateChange => 0xee
  | .unusedStack => 0xeb
  | .userEvent ac => 0x90 + ac
  | .unknown raw => raw

set_option maxHeartbeats 2000000

theorem EventType.roundtrip_low : ∀ id : Fin 256, (EventType.ofId id.val).toId = id.val := by
  decide

theorem iteElse {α : Sort u_1} {c : Prop} [Decidable c] (hnc : ¬ c) (a b : α) :
    (if c then a else b) = b := if_neg hnc

theorem EventType.roundtrip_high (id : Nat) (h : 256 ≤ id) :
    (EventType.ofId id).toId = id := by
  unfold EventType.ofId
  rw [iteElse (by omega), iteElse (by omega), iteElse (by omega), iteElse (by omega), iteElse (by omega), iteElse (by omega), iteElse (by omega), iteElse (by omega), iteElse (by omega), iteElse (by omega), iteElse (by omega), iteElse (by omega), iteElse (by omega), iteElse (by omega), iteElse (by omega), iteElse (by omega), iteElse (by omega), iteElse (by omega), iteElse (by omega), iteElse (by omega), iteElse (by omega), iteElse (by omega), iteElse (by omega), iteElse (by omega), iteElse (by omega), iteElse (by omega), iteElse (by omega), iteElse (by omega), iteElse (by omega), iteElse (by omega), iteElse (by omega), iteElse (by omega), iteElse (by omega), iteElse (by omega), iteElse (by omega), iteElse (by omega), iteElse (by omega), iteElse (by omega), iteElse (by omega), iteElse (by omega), iteElse (by omega), iteElse (by omega), iteElse (by omega), iteElse (by omega), iteElse (by omega), iteElse (by omega), iteElse (by omega), iteElse (by omega), iteElse (by omega), iteElse (by omega), iteElse (by omega), iteElse (by omega), iteElse (by omega), iteElse (by omega), iteElse (by omega), iteElse (by omega), iteElse (by omega), iteElse (by omega), iteElse (by omega), iteElse (by omega), iteElse (by omega), iteElse (by omega), iteElse (by omega), iteElse (by omega), iteElse (by omega), iteElse (by omega), iteElse (by omega), iteElse (by omega), iteElse (by omega), iteElse (by omega), iteElse (by omega), iteElse (by omega), iteElse (by omega), iteElse (by omega), iteElse (by omega), iteElse (by omega), iteElse (by omega), iteElse (by omega), iteElse (by omega), iteElse (by omega), iteElse (by omega), iteElse (by omega), iteElse (by omega), iteElse (by omega), iteElse (by omega), iteElse (by omega), iteElse (by omega), iteElse (by omega), iteElse (by omega), iteElse (by omega), iteElse (by omega), iteElse (by omega), iteElse (by omega), iteElse (by omega), iteElse (by omega), iteElse (by omega), iteElse (by omega), iteElse (by omega), iteElse (by omega), iteElse (by omega), iteElse (by omega), iteElse (by omega), iteElse (by omega), iteElse (by omega), iteElse (by omega), iteElse (by omega), iteElse (by omega), iteElse (by omega), iteElse (by omega)]
  rfl

end Streaming

namespace Snapshot

/-- `EventType` for the snapshot protocol, from `src/snapshot/event/mod.rs`;
class-indexed groups carry their `ObjectClassCode` (the low 3 bits). -/
inductive EventType where
  | null
  | xps
  | taskReady
  | newTime
  | taskSwitchIsrBegin
  | taskSwitchIsrResume
  | taskSwitchTaskBegin
  | taskSwitchTaskResume
  | objectCloseName (occ : Nat)
  | objectCloseProperty (occ : Nat)
  | createObject (occ : Nat)
  | send (occ : Nat)
  | receive (occ : Nat)
  | sendFromIsr (occ : Nat)
  | receiveFromIsr (occ : Nat)
  | createObjectFailed (occ : Nat)
  | sendFailed (occ : Nat)
  | receiveFailed (occ : Nat)
  | sendFromIsrFailed (occ : Nat)
  | receiveFromIsrFailed (occ : Nat)
  | receiveBlock (occ : Nat)
  | sendBlock (occ : Nat)
  | peek (occ : Nat)
  | deleteObject (occ : Nat)
  | taskDelayUntil
  | taskDelay
  | taskSuspend
  | taskResume
  | taskResumeFromIsr
  | taskPrioritySet
  | taskPriorityInherit
  | taskPriorityDisinherit
  | pendFuncCall
  | pendFuncCallFromIsr
  | pendFuncCallFailed
  | pendFuncCallFromIsrFailed
  | memoryMallocSize
  | memoryMallocAddress
  | memoryFreeSize
  | memoryFreeAddress
  | xts8
  | xts16
  | eventBeingWritten
  | reservedDummyCode
  | lowPowerBegin
  | lowPowerEnd
  | xid
  | xts16l
  | timerCreate
  | timerStart
  | timerReset
  | timerStop
  | timerChangePeriod
  | timerDeleteObject
  | timerStartFromIsr
  | timerResetFromIsr
  | timerStopFromIsr
  | timerCreateFailed
  | timerStartFailed
  | timerResetFailed
  | timerStopFailed
  | timerChangePeriodFailed
  | timerDeleteFailed
  | timerStartFromIsrFailed
  | timerResetFromIsrFailed
  | timerStopFromIsrFailed
  | eventGroupCreate
  | eventGroupCreateFailed
  | eventGroupSyncBlock
  | eventGroupSyncEnd
  | eventGroupWaitBitsBlock
  | eventGroupWaitBitsEnd
  | eventGroupClearBits
  | eventGroupClearBitsFromIsr
  | eventGroupSetBits
  | eventGroupDeleteObject
  | eventGroupSyncEndFailed
  | eventGroupWaitBitsEndFailed
  | eventGroupSetBitsFromIsr
  | eventGroupSetBitsFromIsrFailed
  | taskInstanceFinishedNextKse
  | taskInstanceFinishedDirect
  | taskNotify
  | taskNotifyTake
  | taskNotifyTakeBlock
  | taskNotifyTakeFailed
  | taskNotifyWait
  | taskNotifyWaitBlock
  | taskNotifyWaitFailed
  | taskNotifyFromIsr
  | taskNotifyGiveFromIsr
  | timerExpired
  | queuePeekBlock
  | semaphortPeekBlock
  | mutexPeekBlock
  | queuePeekFailed
  | semaphortPeekFailed
  | mutexPeekFailed
  | streambufferReset
  | messagebufferReset
  | streambufferObjectCloseName
  | messagebufferObjectCloseName
  | streambufferObjectCloseProperty
  | messagebufferObjectCloseProperty
  | memoryMallocSizeFailed
  | memoryFreeAddressFailed
  | unusedStack
  | userEvent (argRecordCount : Nat)
  | unknown (code : Nat)

/-- `EventType::from(EventCode)` for the snapshot protocol: the `match` on the
raw event-code byte, in source arm order; `ObjectClassCode::from_raw` is
`raw & 0x07`. -/
def EventType.ofCode (ec : Nat) : EventType :=
  if ec = 0x00 then .null
  else if ec = 0x01 then .xps
  else if ec = 0x02 then .taskReady
  else if ec = 0x03 then .newTime
  else if ec = 0x04 then .taskSwitchIsrBegin
  else if ec = 0x05 then .taskSwitchIsrResume
  else if ec = 0x06 then .taskSwitchTaskBegin
  else if ec = 0x07 then .taskSwitchTaskResume
  else if 0x08 ≤ ec ∧ ec ≤ 0x0f then .objectCloseName (ec &&& 0x07)
  else if 0x10 ≤ ec ∧ ec ≤ 0x17 then .objectCloseProperty (ec &&& 0x07)
  else if 0x18 ≤ ec ∧ ec ≤ 0x1f then .createObject (ec &&& 0x07)
  else if 0x20 ≤ ec ∧ ec ≤ 0x27 then .send (ec &&& 0x07)
  else if 0x28 ≤ ec ∧ ec ≤ 0x2f then .receive (ec &&& 0x07)
  else if 0x30 ≤ ec ∧ ec ≤ 0x37 then .sendFromIsr (ec &&& 0x07)
  else if 0x38 ≤ ec ∧ ec ≤ 0x3f then .receiveFromIsr (ec &&& 0x07)
  else if 0x40 ≤ ec ∧ ec ≤ 0x47 then .createObjectFailed (ec &&& 0x07)
  else if 0x48 ≤ ec ∧ ec ≤ 0x4f then .sendFailed (ec &&& 0x07)
  else if 0x50 ≤ ec ∧ ec ≤ 0x57 then .receiveFailed (ec &&& 0x07)
  else if 0x58 ≤ ec ∧ ec ≤ 0x5f then .sendFromIsrFailed (ec &&& 0x07)
  else if 0x60 ≤ ec ∧ ec ≤ 0x67 then .receiveFromIsrFailed (ec &&& 0x07)
  else if 0x68 ≤ ec ∧ ec ≤ 0x6f then .receiveBlock (ec &&& 0x07)
  else if 0x70 ≤ ec ∧ ec ≤ 0x77 then .sendBlock (ec &&& 0x07)
  else if 0x78 ≤ ec ∧ ec ≤ 0x7f then .peek (ec &&& 0x07)
  else if 0x80 ≤ ec ∧ ec ≤ 0x87 then .deleteObject (ec &&& 0x07)
  else if ec = 0x88 then .taskDelayUntil
  else if ec = 0x89 then .taskDelay
  else if ec = 0x8a then .taskSuspend
  else if ec = 0x8b then .taskResume
  else if ec = 0x8c then .taskResumeFromIsr
  else if ec = 0x8d then .taskPrioritySet
  else if ec = 0x8e then .taskPriorityInherit
  else if ec = 0x8f then .taskPriorityDisinherit
  else if ec = 0x90 then .pendFuncCall
  else if ec = 0x91 then .pendFuncCallFromIsr
  else if ec = 0x92 then .pendFuncCallFailed
  else if ec = 0x93 then .pendFuncCallFromIsrFailed
  else if ec = 0x94 then .memoryMallocSize
  else if ec = 0x95 then .memoryMallocAddress
  else if ec = 0x96 then .memoryFreeSize
  else if ec = 0x97 then .memoryFreeAddress
  else if 0x98 ≤ ec ∧ ec ≤ 0xa7 then .userEvent (ec - 0x98)
  else if ec = 0xa8 then .xts8
  else if ec = 0xa9 then .xts16
  else if ec = 0xaa then .eventBeingWritten
  else if ec = 0xab then .reservedDummyCode
  else if ec = 0xac then .lowPowerBegin
  else if ec = 0xad then .lowPowerEnd
  else if ec = 0xae then .xid
  else if ec = 0xaf then .xts16l
  else if ec = 0xb0 then .timerCreate
  else if ec = 0xb1 then .timerStart
  else if ec = 0xb2 then .timerReset
  else if ec = 0xb3 then .timerStop
  else if ec = 0xb4 then .timerChangePeriod
  else if ec = 0xb5 then .timerDeleteObject
  else if ec = 0xb6 then .timerStartFromIsr
  else if ec = 0xb7 then .timerResetFromIsr
  else if ec = 0xb8 then .timerStopFromIsr
  else if ec = 0xb9 then .timerCreateFailed
  else if ec = 0xba then .timerStartFailed
  else if ec = 0xbb then .timerResetFailed
  else if ec = 0xbc then .timerStopFailed
  else if ec = 0xbd then .timerChangePeriodFailed
  else if ec = 0xbe then .timerDeleteFailed
  else if ec = 0xbf then .timerStartFromIsrFailed
  else if ec = 0xc0 then .timerResetFromIsrFailed
  else if ec = 0xc1 then .timerStopFromIsrFailed
  else if ec = 0xc2 then .eventGroupCreate
  else if ec = 0xc3 then .eventGroupCreateFailed
  else if ec = 0xc4 then .eventGroupSyncBlock
  else if ec = 0xc5 then .eventGroupSyncEnd
  else if ec = 0xc6 then .eventGroupWaitBitsBlock
  else if ec = 0xc7 then .eventGroupWaitBitsEnd
  else if ec = 0xc8 then .eventGroupClearBits
  else if ec = 0xc9 then .eventGroupClearBitsFromIsr
  else if ec = 0xca then .eventGroupSetBits
  else if ec = 0xcb then .eventGroupDeleteObject
  else if ec = 0xcc then .eventGroupSyncEndFailed
  else if ec = 0xcd then .eventGroupWaitBitsEndFailed
  else if ec = 0xce then .eventGroupSetBitsFromIsr
  else if ec = 0xcf then .eventGroupSetBitsFromIsrFailed
  else if ec = 0xd0 then .taskInstanceFinishedNextKse
  else if ec = 0xd1 then .taskInstanceFinishedDirect
  else if ec = 0xd2 then .taskNotify
  else if ec = 0xd3 then .taskNotifyTake
  else if ec = 0xd4 then .taskNotifyTakeBlock
  else if ec = 0xd5 then .taskNotifyTakeFailed
  else if ec = 0xd6 then .taskNotifyWait
  else if ec = 0xd7 then .taskNotifyWaitBlock
  else if ec = 0xd8 then .taskNotifyWaitFailed
  else if ec = 0xd9 then .taskNotifyFromIsr
  else if ec = 0xda then .taskNotifyGiveFromIsr
  else if ec = 0xdb then .timerExpired
  else if ec = 0xdc then .queuePeekBlock
  else if ec = 0xdd then .semaphortPeekBlock
  else if ec = 0xde then .mutexPeekBlock
  else if ec = 0xdf then .queuePeekFailed
  else if ec = 0xe0 then .semaphortPeekFailed
  else if ec = 0xe1 then .mutexPeekFailed
  else if ec = 0xe2 then .streambufferReset
  else if ec = 0xe3 then .messagebufferReset
  else if ec = 0xe4 then .streambufferObjectCloseName
  else if ec = 0xe5 then .messagebufferObjectCloseName
  else if ec = 0xe6 then .streambufferObjectCloseProperty
  else if ec = 0xe7 then .messagebufferObjectCloseProperty
  else if ec = 0xe8 then .memoryMallocSizeFailed
  else if ec = 0xe9 then .memoryFreeAddressFailed
  else if ec = 0xea then .unusedStack
  else .unknown ec

/-- `EventCode::from(EventType)` for the snapshot protocol. -/
def EventType.toCode : EventType → Nat
  | .null => 0x00
  | .xps => 0x01
  | .taskReady => 0x02
  | .newTime => 0x03
  | .taskSwitchIsrBegin => 0x04
  | .taskSwitchIsrResume => 0x05
  | .taskSwitchTaskBegin => 0x06
  | .taskSwitchTaskResume => 0x07
  | .objectCloseName occ => 0x08 + occ
  | .objectCloseProperty occ => 0x10 + occ
  | .createObject occ => 0x18 + occ
  | .send occ => 0x20 + occ
  | .receive occ => 0x28 + occ
  | .sendFromIsr occ => 0x30 + occ
  | .receiveFromIsr occ => 0x38 + occ
  | .createObjectFailed occ => 0x40 + occ
  | .sendFailed occ => 0x48 + occ
  | .receiveFailed occ => 0x50 + occ
  | .sendFromIsrFailed occ => 0x58 + occ
  | .receiveFromIsrFailed occ => 0x60 + occ
  | .receiveBlock occ => 0x68 + occ
  | .sendBlock occ => 0x70 + occ
  | .peek occ => 0x78 + occ
  | .deleteObject occ => 0x80 + occ
  | .taskDelayUntil => 0x88
  | .taskDelay => 0x89
  | .taskSuspend => 0x8a
  | .taskResume => 0x8b
  | .taskResumeFromIsr => 0x8c
  | .taskPrioritySet => 0x8d
  | .taskPriorityInherit => 0x8e
  | .taskPriorityDisinherit => 0x8f
  | .pendFuncCall => 0x90
  | .pendFuncCallFromIsr => 0x91
  | .pendFuncCallFailed => 0x92
  | .pendFuncCallFromIsrFailed => 0x93
  | .memoryMallocSize => 0x94
  | .memoryMallocAddress => 0x95
  | .memoryFreeSize => 0x96
  | .memoryFreeAddress => 0x97
  | .xts8 => 0xa8
  | .xts16 => 0xa9
  | .eventBeingWritten => 0xaa
  | .reservedDummyCode => 0xab
  | .lowPowerBegin => 0xac
  | .lowPowerEnd => 0xad
  | .xid => 0xae
  | .xts16l => 0xaf
  | .timerCreate => 0xb0
  | .timerStart => 0xb1
  | .timerReset => 0xb2
  | .timerStop => 0xb3
  | .timerChangePeriod => 0xb4
  | .timerDeleteObject => 0xb5
  | .timerStartFromIsr => 0xb6
  | .timerResetFromIsr => 0xb7
  | .timerStopFromIsr => 0xb8
  | .timerCreateFailed => 0xb9
  | .timerStartFailed => 0xba
  | .timerResetFailed => 0xbb
  | .timerStopFailed => 0xbc
  | .timerChangePeriodFailed => 0xbd
  | .timerDeleteFailed => 0xbe
  | .timerStartFromIsrFailed => 0xbf
  | .timerResetFromIsrFailed => 0xc0
  | .timerStopFromIsrFailed => 0xc1
  | .eventGroupCreate => 0xc2
  | .eventGroupCreateFailed => 0xc3
  | .eventGroupSyncBlock => 0xc4
  | .eventGroupSyncEnd => 0xc5
  | .eventGroupWaitBitsBlock => 0xc6
  | .eventGroupWaitBitsEnd => 0xc7
  | .eventGroupClearBits => 0xc8
  | .eventGroupClearBitsFromIsr => 0xc9
  | .eventGroupSetBits => 0xca
  | .eventGroupDeleteObject => 0xcb
  | .eventGroupSyncEndFailed => 0xcc
  | .eventGroupWaitBitsEndFailed => 0xcd
  | .eventGroupSetBitsFromIsr => 0xce
  | .eventGroupSetBitsFromIsrFailed => 0xcf
  | .taskInstanceFinishedNextKse => 0xd0
  | .taskInstanceFinishedDirect => 0xd1
  | .taskNotify => 0xd2
  | .taskNotifyTake => 0xd3
  | .taskNotifyTakeBlock => 0xd4
  | .taskNotifyTakeFailed => 0xd5
  | .taskNotifyWait => 0xd6
  | .taskNotifyWaitBlock => 0xd7
  | .taskNotifyWaitFailed => 0xd8
  | .taskNotifyFromIsr => 0xd9
  | .taskNotifyGiveFromIsr => 0xda
  | .timerExpired => 0xdb
  | .queuePeekBlock => 0xdc
  | .semaphortPeekBlock => 0xdd
  | .mutexPeekBlock => 0xde
  | .queuePeekFailed => 0xdf
  | .semaphortPeekFailed => 0xe0
  | .mutexPeekFailed => 0xe1
  | .streambufferReset => 0xe2
  | .messagebufferReset => 0xe3
  | .streambufferObjectCloseName => 0xe4
  | .messagebufferObjectCloseName => 0xe5
  | .streambufferObjectCloseProperty => 0xe6
  | .messagebufferObjectCloseProperty => 0xe7
  | .memoryMallocSizeFailed => 0xe8
  | .memoryFreeAddressFailed => 0xe9
  | .unusedStack => 0xea
  | .userEvent arc => 0x98 + arc
  | .unknown raw => raw

theorem EventType.roundtrip : ∀ ec : Fin 256, (EventType.ofCode ec.val).toCode = ec.val := by
  decide

end Snapshot

/-- C5: converting a raw event code to its event type and back is the identity in
both protocols: every 12-bit streaming event ID survives
`EventType::from(EventId)` followed by `EventId::from(EventType)`, and every
8-bit snapshot event code survives `EventType::from(EventCode)` followed by
`EventCode::from(EventType)`. -/
theorem C5_event_code_roundtrip :
    (∀ id < 4096, (Streaming.EventType.ofId id).toId = id) ∧
      (∀ ec < 256, (Snapshot.EventType.ofCode ec).toCode = ec) := by
  constructor
  · intro id _
    by_cases h : id < 256
    · exact Streaming.EventType.roundtrip_low ⟨id, h⟩
    · exact Streaming.EventType.roundtrip_high id (by omega)
  · intro ec hec
    exact Snapshot.EventType.roundtrip ⟨ec, hec⟩

/-- C5 witness: the round trip evaluated at a streaming user-event ID and a
snapshot class-indexed code. -/
theorem C5_event_code_roundtrip_witness :
    (Streaming.EventType.ofId 0x9A).toId = 0x9A ∧
      (Snapshot.EventType.ofCode 0x21).toCode = 0x21 :=
  ⟨C5_event_code_roundtrip.1 0x9A (by norm_num),
    C5_event_code_roundtrip.2 0x21 (by norm_num)⟩

namespace Streaming

/-- `FIXED_USER_EVENT_ID` from `src/streaming/event/mod.rs`. -/
def FIXED_USER_EVENT_ID : Nat := 0x98

/-- The decode shape chosen by the `EventType::UserEvent` arm of
`EventParser::next_event` (`src/streaming/event/parser.rs`): a parameter-count
error, a fixed user event (format string resolved from a symbol-table handle),
or a variable user event (inline format string). -/
inductive UserEventShape where
  | invalidParamCount (expected got : Nat)
  | fixed (argCount : Nat)
  | variableEvent (argCount : Nat)
  deriving Repr, DecidableEq

/-- The `EventType::UserEvent(raw_arg_count)` arm of `EventParser::next_event`
(`src/streaming/event/parser.rs`), up to the choice of decode shape: the arm is
reached when `EventType::from(EventId)` yields `UserEvent(event_id - 0x90)`; it
first requires at least one parameter (the channel), reinterprets the low nibble
as the fixed arg-record count when `event_id >= FIXED_USER_EVENT_ID` and
`raw_arg_count >= num_params`, and then requires `arg_count < num_params`. -/
def userEventShape (eventCode : Nat) : UserEventShape :=
  let event_id := eventId eventCode
  let num_params := parameterCount eventCode
  let raw_arg_count := event_id - 0x90
  if num_params < 1 then .invalidParamCount 1 num_params
  else
    let is_fixed : Bool := decide (FIXED_USER_EVENT_ID ≤ event_id ∧ num_params ≤ raw_arg_count)
    let arg_count := if is_fixed then event_id - FIXED_USER_EVENT_ID else raw_arg_count
    if num_params ≤ arg_count then .invalidParamCount arg_count num_params
    else if is_fixed then .fixed arg_count
    else .variableEvent arg_count

/-- C8 counterexample: event code `0xA098` has event ID `0x98` and wire parameter
count `10`, which exceeds the low-nibble arg count `8`; the claim says such an
event is decoded as fixed, but the parser decodes it as a variable user event
(the source condition is `raw_arg_count >= num_params`, the opposite
comparison). -/
theorem C8_fixed_user_event_counterexample :
    eventId 0xA098 = 0x98 ∧ parameterCount 0xA098 = 10 ∧
      0x98 - 0x90 < parameterCount 0xA098 ∧
      userEventShape 0xA098 = .variableEvent 8 := by decide

/-- The fixed-user-event arg-record count of a decode shape, if the shape is a
fixed user event. -/
def UserEventShape.fixedArgCount : UserEventShape → Option Nat
  | .fixed k => some k
  | _ => none

/-- The variable-user-event arg count of a decode shape, if the shape is a
variable user event. -/
def UserEventShape.variableArgCount : UserEventShape → Option Nat
  | .variableEvent k => some k
  | _ => none

/-- C8 (amended): for every event ID `0x98 + i` in `0x98..=0x9F` and 4-bit wire
parameter count `p`, the event is decoded as a *fixed* user event (with
arg-record count `i = id − 0x98`) exactly when `p ≥ 1`, the low-nibble arg count
`8 + i = id − 0x90` is at least `p` (the parameter count does *not* exceed it),
and `i < p`; it is decoded as a *variable* user event (with inline format
string and arg count `8 + i`) exactly when `p` exceeds the low-nibble arg
count; every other combination is a parameter-count error. -/
theorem C8_fixed_user_event : ∀ i : Fin 8, ∀ p : Fin 16,
    (userEventShape (p.val * 4096 + (0x98 + i.val))).fixedArgCount =
      (if 1 ≤ p.val ∧ p.val ≤ 8 + i.val ∧ i.val < p.val then some i.val else none) ∧
    (userEventShape (p.val * 4096 + (0x98 + i.val))).variableArgCount =
      (if 8 + i.val < p.val then some (8 + i.val) else none) := by decide

end Streaming

namespace Snapshot

/-- `MarkerBytes::Start.as_bytes()` from `src/snapshot/markers.rs`. -/
def startMarker : List Nat :=
  [0x01, 0x02, 0x03, 0x04, 0x71, 0x72, 0x73, 0x74, 0xF1, 0xF2, 0xF3, 0xF4]

/-- The errors the start-marker locate loop of `RecorderData::locate_and_parse`
can surface: `Error::MarkerBytes(pos, window, Start)` and `Error::Io`
(an `UnexpectedEof` from `read_exact`/`read_u8`). -/
inductive LocateError where
  | markerBytes (offset : Nat) (window : List Nat)
  | ioErr
  deriving Repr, DecidableEq

/-- The sliding-window loop of `RecorderData::locate_and_parse`
(`src/snapshot/recorder_data.rs`): if the 12-byte window matches the start
marker, break with the current offset; otherwise pop the front, read one more
byte (end of input surfaces the `Io` error from `read_u8`), and advance. -/
def locateLoop (w : List Nat) (off : Nat) : List Nat → Except LocateError Nat
  | [] => if w = startMarker then .ok off else .error .ioErr
  | b :: bs =>
    if w = startMarker then .ok off
    else locateLoop (w.tail ++ [b]) (off + 1) bs

/-- The start-marker locate phase of `RecorderData::locate_and_parse`: an initial
`read_exact` of 12 bytes (end of input surfaces the `Io` error), then the
sliding-window loop from offset 0. -/
def locate (input : List Nat) : Except LocateError Nat :=
  if 12 ≤ input.length then locateLoop (input.take 12) 0 (input.drop 12)
  else .error .ioErr

/-- The start marker occurs at byte offset `k` of `l`. -/
def occursAt (l : List Nat) (k : Nat) : Prop := (l.drop k).take 12 = startMarker

/-- Offset of the first occurrence of the start marker, if any. -/
def firstOcc : List Nat → Option Nat
  | [] => none
  | a :: t =>
    if (a :: t).take 12 = startMarker then some 0
    else (firstOcc t).map (· + 1)

end Snapshot

namespace Snapshot

theorem take_ne_marker_of_short (l : List Nat) (h : l.length < 12) :
    l.take 12 ≠ startMarker := by
  intro he
  have hlen := congrArg List.length he
  simp [List.length_take, startMarker] at hlen
  omega

theorem take12_self (w : List Nat) (h : w.length = 12) : w.take 12 = w := by
  rw [← h, List.take_length]

theorem take12_append (w rest : List Nat) (h : w.length = 12) :
    (w ++ rest).take 12 = w := by
  rw [← h, List.take_left]

theorem firstOcc_short (l : List Nat) (h : l.length < 12) : firstOcc l = none := by
  induction l with
  | nil => rfl
  | cons a t ih =>
    rw [firstOcc, if_neg (take_ne_marker_of_short _ h)]
    rw [ih (by simp at h ⊢; omega)]
    rfl

theorem firstOcc_spec (l : List Nat) :
    (∀ j, firstOcc l = some j → occursAt l j ∧ ∀ k < j, ¬ occursAt l k) ∧
      (firstOcc l = none → ∀ k, ¬ occursAt l k) := by
  induction l with
  | nil =>
    constructor
    · intro j h
      simp [firstOcc] at h
    · intro _ k
      simp [occursAt, startMarker]
  | cons a t ih =>
    by_cases hm : (a :: t).take 12 = startMarker
    · constructor
      · intro j h
        rw [firstOcc, if_pos hm] at h
        have hj : j = 0 := by simpa using h.symm
        subst hj
        exact ⟨hm, by omega⟩
      · intro h
        rw [firstOcc, if_pos hm] at h
        exact absurd h (by simp)
    · rcases hfo : firstOcc t with _ | j
      · constructor
        · intro j h
          rw [firstOcc, if_neg hm, hfo] at h
          simp at h
        · intro _ k
          match k with
          | 0 => exact hm
          | k + 1 =>
            show ¬ occursAt t k
            exact ih.2 hfo k
      · constructor
        · intro j' h
          rw [firstOcc, if_neg hm, hfo] at h
          simp at h
          obtain rfl : j' = j + 1 := h.symm
          refine ⟨ih.1 j hfo |>.1, ?_⟩
          intro k hk
          match k with
          | 0 => exact hm
          | k + 1 =>
            show ¬ occursAt t k
            exact (ih.1 j hfo).2 k (by omega)
        · intro h
          rw [firstOcc, if_neg hm, hfo] at h
          simp at h

theorem locateLoop_spec (rest : List Nat) : ∀ (w : List Nat) (off : Nat),
    w.length = 12 →
    locateLoop w off rest =
      match firstOcc (w ++ rest) with
      | some j => .ok (off + j)
      | none => .error .ioErr := by
  induction rest with
  | nil =>
    intro w off hw
    rw [List.append_nil]
    by_cases hm : w = startMarker
    · rw [locateLoop, if_pos hm]
      obtain ⟨a, t, rfl⟩ : ∃ a t, w = a :: t := by
        cases w with
        | nil => simp at hw
        | cons a t => exact ⟨a, t, rfl⟩
      rw [firstOcc, if_pos (by rw [take12_self _ hw]; exact hm)]
      simp
    · rw [locateLoop, if_neg hm]
      obtain ⟨a, t, rfl⟩ : ∃ a t, w = a :: t := by
        cases w with
        | nil => simp at hw
        | cons a t => exact ⟨a, t, rfl⟩
      rw [firstOcc, if_neg (by rw [take12_self _ hw]; exact hm)]
      rw [firstOcc_short t (by simp at hw ⊢; omega)]
      rfl
  | cons b bs ih =>
    intro w off hw
    by_cases hm : w = startMarker
    · rw [locateLoop, if_pos hm]
      rw [show w ++ b :: bs = (w ++ [b]) ++ bs by simp]
      rw [show (w ++ [b]) ++ bs = w ++ ([b] ++ bs) by simp]
      obtain ⟨a, t, rfl⟩ : ∃ a t, w = a :: t := by
        cases w with
        | nil => simp at hw
        | cons a t => exact ⟨a, t, rfl⟩
      rw [show (a :: t) ++ ([b] ++ bs) = a :: (t ++ (b :: bs)) by simp]
      rw [firstOcc, if_pos (by rw [show a :: (t ++ (b :: bs)) = (a :: t) ++ (b :: bs) by simp, take12_append _ _ hw]; exact hm)]
      simp
    · rw [locateLoop, if_neg hm]
      obtain ⟨a, t, rfl⟩ : ∃ a t, w = a :: t := by
        cases w with
        | nil => simp at hw
        | cons a t => exact ⟨a, t, rfl⟩
      have hlen2 : (List.tail (a :: t) ++ [b]).length = 12 := by
        simp at hw ⊢
        omega
      rw [ih (List.tail (a :: t) ++ [b]) (off + 1) hlen2]
      rw [show (a :: t) ++ b :: bs = a :: (t ++ b :: bs) by simp]
      rw [firstOcc, if_neg (by rw [show a :: (t ++ (b :: bs)) = (a :: t) ++ (b :: bs) by simp, take12_append _ _ hw]; exact hm)]
      rw [show List.tail (a :: t) ++ [b] ++ bs = t ++ b :: bs by simp]
      rcases hfo : firstOcc (t ++ b :: bs) with _ | j
      · rfl
      · show Except.ok (off + 1 + j) = Except.ok (off + (j + 1))
        congr 1
        omega

/-- C9 counterexample: on an input that never contains the 12-byte start marker
(here 16 zero bytes), the locate phase of `RecorderData::locate_and_parse` fails
with the `Io` error surfaced by the failing `read_u8`, not with `MarkerBytes`. -/
theorem C9_locate_counterexample :
    locate (List.replicate 16 0) = .error .ioErr ∧
      ∀ off w, locate (List.replicate 16 0) ≠ .error (.markerBytes off w) := by
  have h : locate (List.replicate 16 0) = .error .ioErr := by decide
  refine ⟨h, ?_⟩
  intro off w hcontra
  rw [h] at hcontra
  simp at hcontra

/-- C9 (amended): the locate phase of `RecorderData::locate_and_parse` slides a
12-byte window over the input; when it returns an offset, that offset is the
first at which the start-marker byte sequence occurs, and when the input ends
before the window ever matches it fails with the `Io` (unexpected end of input)
error — not with `MarkerBytes`, which is only produced by the later marker
re-read at a seeked position. -/
theorem C9_locate_marker (input : List Nat) :
    (∀ j, locate input = .ok j →
        occursAt input j ∧ ∀ k < j, ¬ occursAt input k) ∧
      (∀ e, locate input = .error e →
        e = .ioErr ∧ ∀ k, ¬ occursAt input k) := by
  unfold locate
  by_cases hlen : 12 ≤ input.length
  · rw [if_pos hlen]
    rw [locateLoop_spec _ _ _ (by simp [List.length_take]; omega)]
    rw [List.take_append_drop]
    rcases hfo : firstOcc input with _ | j
    · constructor
      · intro j h
        simp at h
      · intro e h
        simp at h
        exact ⟨h.symm, (firstOcc_spec input).2 hfo⟩
    · constructor
      · intro j' h
        simp at h
        have hj : j' = j := by omega
        rw [hj]
        exact (firstOcc_spec input).1 j hfo
      · intro e h
        simp at h
  · rw [if_neg hlen]
    constructor
    · intro j h
      simp at h
    · intro e h
      simp at h
      refine ⟨h.symm, ?_⟩
      intro k hk
      exact take_ne_marker_of_short (input.drop k) (by simp; omega) hk

/-- C9 witness: with two garbage bytes before the marker, locate returns offset
2, the first (and only) occurrence. -/
theorem C9_locate_marker_witness :
    occursAt (9 :: 9 :: startMarker) 2 ∧ ∀ k < 2, ¬ occursAt (9 :: 9 :: startMarker) k :=
  (C9_locate_marker (9 :: 9 :: startMarker)).1 2 (by decide)

end Snapshot

/-! The printf-style formatter `format_symbol_string` from `src/types.rs`
(claim C1).  Format strings and rendered output are lists of characters;
argument data is a list of bytes read through a positioned cursor, as the
`ByteOrdered` reader does.  The Rust `?` operator on the reads is modeled by
explicit matches on `Except`. -/

/-- `Protocol` from `src/types.rs`. -/
inductive Protocol where
  | snapshot
  | streaming
  deriving Repr, DecidableEq

/-- `SubSpecifier` from `src/types.rs`. -/
inductive SubSpecifier where
  | none
  | long
  | short
  | octet
  deriving Repr, DecidableEq

/-- `Argument` from `src/types.rs`; float variants carry their raw bit pattern
(the floating-point `Display` rendering is not modeled — no claim depends on
the rendered text of a float argument). -/
inductive Argument where
  | i8 (v : Int)
  | u8 (v : Nat)
  | i16 (v : Int)
  | u16 (v : Nat)
  | i32 (v : Int)
  | u32 (v : Nat)
  | f32 (bits : Nat)
  | f64 (bits : Nat)
  | str (s : List Char)
  deriving Repr, DecidableEq

/-- `FormattedStringError` from `src/types.rs`: zero symbol-table index, missing
symbol-table entry, or an I/O error (insufficient argument bytes). -/
inductive FormattedStringError where
  | invalidSymbolTableIndex
  | symbolLookup (handle : Nat)
  | ioError
  deriving Repr, DecidableEq

/-- Decode a byte list as an unsigned integer with the given byte order. -/
def bytesToNat : Endianness → List Nat → Nat
  | .little, bs => bs.foldr (fun b acc => b + 256 * acc) 0
  | .big, bs => bs.foldl (fun acc b => acc * 256 + b) 0

/-- Read `n` bytes at `pos` from the argument data; end of data is the reader
`Io` error (`UnexpectedEof`). -/
def readBytes (data : List Nat) (pos n : Nat) :
    Except FormattedStringError (List Nat × Nat) :=
  if pos + n ≤ data.length then .ok ((data.drop pos).take n, pos + n)
  else .error .ioError

/-- Read an `n`-byte unsigned integer (the `read_uNN` calls of the source). -/
def readUnsigned (endianness : Endianness) (data : List Nat) (pos n : Nat) :
    Except FormattedStringError (Nat × Nat) :=
  match readBytes data pos n with
  | .error e => .error e
  | .ok (bs, p) => .ok (bytesToNat endianness bs, p)

/-- Reinterpret a `w`-bit unsigned value as two's-complement signed. -/
def toSigned (w : Nat) (v : Nat) : Int :=
  if v < 2 ^ (w - 1) then (v : Int) else (v : Int) - 2 ^ w

/-- The `write!(formatted_string, "{arg}")` rendering of one argument (`Display`
of the numeric variants is plain decimal; floats render as their bit pattern,
see `Argument`). -/
def Argument.display : Argument → List Char
  | .i8 v => (toString v).toList
  | .u8 v => (toString v).toList
  | .i16 v => (toString v).toList
  | .u16 v => (toString v).toList
  | .i32 v => (toString v).toList
  | .u32 v => (toString v).toList
  | .f32 bits => (toString bits).toList
  | .f64 bits => (toString bits).toList
  | .str s => s

/-- Result of the specifier `match in_c` arm of `format_symbol_string`: either a
decoded argument with the new cursor position, or the unsupported-specifier
case that makes the whole call return the raw format string. -/
inductive ArgReadResult where
  | okArg (arg : Argument) (pos : Nat)
  | unsupported
  deriving Repr, DecidableEq

/-- The `match in_c { ... }` of `format_symbol_string` (`src/types.rs`), arm for
arm in source order; `%s` reads a `u16` handle in snapshot mode and a `u32`
handle in streaming mode, rejects a zero handle (`InvalidSymbolTableIndex`),
and fails with `SymbolLookup(handle)` when the symbol table has no entry.
Streaming-mode sub-32-bit integers read a full 32-bit word and truncate. -/
def readFmtArg (symbol_table : Nat → Option (List Char)) (protocol : Protocol)
    (endianness : Endianness) (arg_data : List Nat) (pos : Nat) (c : Char)
    (sub : SubSpecifier) : Except FormattedStringError ArgReadResult :=
  if c = 'd' ∧ sub = .none then
    match readUnsigned endianness arg_data pos 4 with
    | .error e => .error e
    | .ok (v, p) => .ok (.okArg (.i32 (toSigned 32 v)) p)
  else if c = 'u' ∧ sub = .none then
    match readUnsigned endianness arg_data pos 4 with
    | .error e => .error e
    | .ok (v, p) => .ok (.okArg (.u32 v) p)
  else if c = 'x' ∨ c = 'X' then
    match readUnsigned endianness arg_data pos 4 with
    | .error e => .error e
    | .ok (v, p) => .ok (.okArg (.u32 v) p)
  else if c = 's' then
    match (match protocol with
      | .snapshot => readUnsigned endianness arg_data pos 2
      | .streaming => readUnsigned endianness arg_data pos 4) with
    | .error e => .error e
    | .ok (v, p) =>
      if v = 0 then .error .invalidSymbolTableIndex
      else
        match symbol_table v with
        | some sym => .ok (.okArg (.str sym) p)
        | Option.none => .error (.symbolLookup v)
  else if c = 'f' ∧ sub ≠ .long then
    match readUnsigned endianness arg_data pos 4 with
    | .error e => .error e
    | .ok (v, p) => .ok (.okArg (.f32 v) p)
  else if c = 'f' ∧ sub = .long then
    match readUnsigned endianness arg_data pos 8 with
    | .error e => .error e
    | .ok (v, p) => .ok (.okArg (.f64 v) p)
  else if c = 'd' ∧ sub = .short then
    match (match protocol with
      | .snapshot => readUnsigned endianness arg_data pos 2
      | .streaming => readUnsigned endianness arg_data pos 4) with
    | .error e => .error e
    | .ok (v, p) => .ok (.okArg (.i16 (toSigned 16 (v % 65536))) p)
  else if c = 'u' ∧ sub = .short then
    match (match protocol with
      | .snapshot => readUnsigned endianness arg_data pos 2
      | .streaming => readUnsigned endianness arg_data pos 4) with
    | .error e => .error e
    | .ok (v, p) => .ok (.okArg (.u16 (v % 65536)) p)
  else if c = 'd' ∧ sub = .octet then
    match (match protocol with
      | .snapshot => readUnsigned endianness arg_data pos 1
      | .streaming => readUnsigned endianness arg_data pos 4) with
    | .error e => .error e
    | .ok (v, p) => .ok (.okArg (.i8 (toSigned 8 (v % 256))) p)
  else if c = 'u' ∧ sub = .octet then
    match (match protocol with
      | .snapshot => readUnsigned endianness arg_data pos 1
      | .streaming => readUnsigned endianness arg_data pos 4) with
    | .error e => .error e
    | .ok (v, p) => .ok (.okArg (.u8 (v % 256)) p)
  else .ok .unsupported

/-- `is_numeric() || '#' || '.'` from the width/padding skip of
`format_symbol_string` (Rust `char::is_numeric` covers Unicode numerics; the
claims only involve ASCII, modeled by `Char.isDigit`). -/
def isWidthOrPadding (c : Char) : Bool := c.isDigit || c = '#' || c = '.'

/-- The per-character loop state of `format_symbol_string`: reader cursor,
accumulated output and arguments, `found_format_specifier`, `found_subspec`. -/
structure FmtState where
  pos : Nat
  out : List Char
  args : List Argument
  foundSpec : Bool
  sub : SubSpecifier
  deriving Repr, DecidableEq

/-- The character loop of `format_symbol_string` (`src/types.rs`): the Rust
`if/else if` chain on the current character, with the unsupported-specifier
early return producing the raw format string and an empty argument list. -/
def formatLoop (symbol_table : Nat → Option (List Char)) (protocol : Protocol)
    (endianness : Endianness) (format_string : List Char) (arg_data : List Nat) :
    List Char → FmtState → Except FormattedStringError (List Char × List Argument)
  | [], s => .ok (s.out, s.args)
  | c :: rest, s =>
    if c = '%' then
      if s.foundSpec then
        formatLoop symbol_table protocol endianness format_string arg_data rest
          { s with foundSpec := false, out := s.out ++ [c] }
      else
        formatLoop symbol_table protocol endianness format_string arg_data rest
          { s with foundSpec := true, sub := .none }
    else if s.foundSpec then
      if isWidthOrPadding c then
        formatLoop symbol_table protocol endianness format_string arg_data rest s
      else if c = 'l' then
        formatLoop symbol_table protocol endianness format_string arg_data rest
          { s with sub := .long }
      else if c = 'h' then
        formatLoop symbol_table protocol endianness format_string arg_data rest
          { s with sub := .short }
      else if c = 'b' then
        formatLoop symbol_table protocol endianness format_string arg_data rest
          { s with sub := .octet }
      else
        match readFmtArg symbol_table protocol endianness arg_data s.pos c s.sub with
        | .error e => .error e
        | .ok .unsupported => .ok (format_string, [])
        | .ok (.okArg arg p) =>
          formatLoop symbol_table protocol endianness format_string arg_data rest
            { pos := p, out := s.out ++ arg.display, args := s.args ++ [arg],
              foundSpec := false, sub := .none }
    else
      formatLoop symbol_table protocol endianness format_string arg_data rest
        { s with out := s.out ++ [c] }

/-- `format_symbol_string` from `src/types.rs`: run the character loop over the
format string from a fresh state. -/
def format_symbol_string (symbol_table : Nat → Option (List Char))
    (protocol : Protocol) (endianness : Endianness) (format_string : List Char)
    (arg_data : List Nat) : Except FormattedStringError (List Char × List Argument) :=
  formatLoop symbol_table protocol endianness format_string arg_data format_string
    ⟨0, [], [], false, .none⟩

/-- The `match format_symbol_string(...)` of `EventParser::next_event`
(`src/streaming/event/parser.rs`, user-event arm) and of
`EventParser::parse_user_event` (`src/snapshot/event/parser.rs`): an `Ok`
result is used as-is, while *any* error — symbol-lookup errors included — is
logged and degraded to the raw format string with an empty argument list; the
event is still produced. -/
def userEventFormat (symbol_table : Nat → Option (List Char)) (protocol : Protocol)
    (endianness : Endianness) (format_string : List Char) (arg_data : List Nat) :
    List Char × List Argument :=
  match format_symbol_string symbol_table protocol endianness format_string arg_data with
  | .ok r => r
  | .error _ => (format_string, [])

example :
    format_symbol_string (fun _ => Option.none) .snapshot .little
        "my int %d = %02u".toList [255, 255, 255, 255, 23, 0, 0, 0] =
      .ok ("my int -1 = 23".toList, [.i32 (-1), .u32 23]) := by decide

example :
    format_symbol_string (fun _ => Option.none) .streaming .little
        "foo bar biz %%".toList [] =
      .ok ("foo bar biz %".toList, []) := by decide

example :
    format_symbol_string (fun h => if h = 1 then some "foo".toList else Option.none)
        .streaming .little "my string = %s".toList [1, 0, 0, 0] =
      .ok ("my string = foo".toList, [.str "foo".toList]) := by decide

example :
    format_symbol_string (fun _ => Option.none) .streaming .little
        "my %q value".toList [] =
      .ok ("my %q value".toList, []) := by decide

theorem formatLoop_push (st : Nat → Option (List Char)) (pr : Protocol)
    (en : Endianness) (fmtAll : List Char) (argData : List Nat) (c : Char)
    (l : List Char) (p : Nat) (o : List Char) (a : List Argument)
    (sub : SubSpecifier) (hc : c ≠ '%') :
    formatLoop st pr en fmtAll argData (c :: l) ⟨p, o, a, false, sub⟩ =
      formatLoop st pr en fmtAll argData l ⟨p, o ++ [c], a, false, sub⟩ := by
  conv_lhs => rw [formatLoop]
  rw [if_neg hc]
  rfl

theorem formatLoop_enter (st : Nat → Option (List Char)) (pr : Protocol)
    (en : Endianness) (fmtAll : List Char) (argData : List Nat)
    (l : List Char) (p : Nat) (o : List Char) (a : List Argument)
    (sub : SubSpecifier) :
    formatLoop st pr en fmtAll argData ('%' :: l) ⟨p, o, a, false, sub⟩ =
      formatLoop st pr en fmtAll argData l ⟨p, o, a, true, .none⟩ := by
  conv_lhs => rw [formatLoop]
  rfl

theorem formatLoop_spec_s (st : Nat → Option (List Char)) (pr : Protocol)
    (en : Endianness) (fmtAll : List Char) (argData : List Nat)
    (rest : List Char) (p : Nat) (o : List Char) (a : List Argument) :
    formatLoop st pr en fmtAll argData ('s' :: rest) ⟨p, o, a, true, .none⟩ =
      match readFmtArg st pr en argData p 's' SubSpecifier.none with
      | .error e => .error e
      | .ok .unsupported => .ok (fmtAll, [])
      | .ok (.okArg arg p2) =>
        formatLoop st pr en fmtAll argData rest
          ⟨p2, o ++ arg.display, a ++ [arg], false, .none⟩ := by
  conv_lhs => rw [formatLoop]
  rfl

theorem readFmtArg_s_eq (st : Nat → Option (List Char)) (pr : Protocol)
    (en : Endianness) (argData : List Nat) (p : Nat) :
    readFmtArg st pr en argData p 's' SubSpecifier.none =
      match (match pr with
        | .snapshot => readUnsigned en argData p 2
        | .streaming => readUnsigned en argData p 4) with
      | .error e => .error e
      | .ok (v, p2) =>
        if v = 0 then .error .invalidSymbolTableIndex
        else
          match st v with
          | some sym => .ok (.okArg (.str sym) p2)
          | Option.none => .error (.symbolLookup v) := rfl

theorem readUnsigned_ok (en : Endianness) (data : List Nat) (p n : Nat)
    (h : p + n ≤ data.length) :
    readUnsigned en data p n = .ok (bytesToNat en ((data.drop p).take n), p + n) := by
  unfold readUnsigned readBytes
  rw [if_pos h]

theorem formatLoop_plain (st : Nat → Option (List Char)) (pr : Protocol)
    (en : Endianness) (fmtAll : List Char) (argData : List Nat)
    (pre : List Char) (hpre : ∀ c ∈ pre, c ≠ '%') :
    ∀ (rest : List Char) (p : Nat) (o : List Char) (a : List Argument)
      (sub : SubSpecifier),
    formatLoop st pr en fmtAll argData (pre ++ rest) ⟨p, o, a, false, sub⟩ =
      formatLoop st pr en fmtAll argData rest ⟨p, o ++ pre, a, false, sub⟩ := by
  induction pre with
  | nil => intro rest p o a sub; simp
  | cons c pre ih =>
    intro rest p o a sub
    have hc : c ≠ '%' := hpre c (by simp)
    have hpre2 : ∀ x ∈ pre, x ≠ '%' := fun x hx => hpre x (by simp [hx])
    rw [List.cons_append, formatLoop_push st pr en fmtAll argData c _ p o a sub hc]
    rw [ih hpre2 rest p (o ++ [c]) a sub]
    simp

/-- C1 counterexample: with an empty symbol table, formatting the string
consisting of a bare `%s` specifier against argument bytes encoding the nonzero
handle 1 makes `format_symbol_string` fail with the symbol-lookup error — but
the user-event decoding step of `next_event`/`parse` catches that error and
produces the raw format string with an empty argument list: the event parse
does not fail, so the symbol-lookup error is *not* propagated to the caller. -/
theorem C1_symbol_lookup_counterexample :
    format_symbol_string (fun _ => Option.none) .streaming .little
        ['%', 's'] [1, 0, 0, 0] = .error (.symbolLookup 1) ∧
      userEventFormat (fun _ => Option.none) .streaming .little
        ['%', 's'] [1, 0, 0, 0] = (['%', 's'], []) := by decide

/-- C1 (amended): for a user-event format string whose first specifier is `%s`
(after a `%`-free prefix), a zero symbol-table handle makes
`format_symbol_string` fail with `InvalidSymbolTableIndex` and a nonzero handle
absent from the table makes it fail with `SymbolLookup(handle)` — the lookup
error does escape `format_symbol_string` itself, unlike format-specifier
errors, which degrade inside it to the raw format string with no arguments.
However, the callers in `next_event`/`parse_user_event` catch every
`format_symbol_string` error and degrade to the raw format string with an
empty argument list, so the event is still produced and no error reaches the
caller of `next_event`/`parse`. -/
theorem C1_symbol_lookup_degrades (symbol_table : Nat → Option (List Char))
    (protocol : Protocol) (endianness : Endianness) (pre rest : List Char)
    (arg_data : List Nat) (v : Nat)
    (hpre : ∀ c ∈ pre, c ≠ '%')
    (hlen : (match protocol with | .snapshot => 2 | .streaming => 4) ≤ arg_data.length)
    (hv : v = bytesToNat endianness
      (arg_data.take (match protocol with | .snapshot => 2 | .streaming => 4))) :
    (v = 0 → format_symbol_string symbol_table protocol endianness
        (pre ++ '%' :: 's' :: rest) arg_data = .error .invalidSymbolTableIndex) ∧
      (v ≠ 0 → symbol_table v = Option.none →
        format_symbol_string symbol_table protocol endianness
          (pre ++ '%' :: 's' :: rest) arg_data = .error (.symbolLookup v)) ∧
      (∀ fmt data e,
        format_symbol_string symbol_table protocol endianness fmt data = .error e →
          userEventFormat symbol_table protocol endianness fmt data = (fmt, [])) := by
  have hmain : format_symbol_string symbol_table protocol endianness
      (pre ++ '%' :: 's' :: rest) arg_data =
        (if v = 0 then .error .invalidSymbolTableIndex
         else
          match symbol_table v with
          | some sym =>
            formatLoop symbol_table protocol endianness
              (pre ++ '%' :: 's' :: rest) arg_data rest
              ⟨(match protocol with | .snapshot => 2 | .streaming => 4),
                ([] ++ pre) ++ sym, [] ++ [Argument.str sym], false, .none⟩
          | Option.none => .error (.symbolLookup v)) := by
    unfold format_symbol_string
    rw [formatLoop_plain symbol_table protocol endianness _ arg_data pre hpre
      ('%' :: 's' :: rest) 0 [] [] .none]
    rw [formatLoop_enter, formatLoop_spec_s, readFmtArg_s_eq]
    cases protocol with
    | snapshot =>
      rw [readUnsigned_ok endianness arg_data 0 2 (by simpa using hlen)]
      simp only [List.drop_zero, Nat.zero_add]
      rw [← hv]
      by_cases hz : v = 0
      · rw [if_pos hz, if_pos hz]
      · rw [if_neg hz, if_neg hz]
        cases hsv : symbol_table v with
        | none => rfl
        | some sym => rfl
    | streaming =>
      rw [readUnsigned_ok endianness arg_data 0 4 (by simpa using hlen)]
      simp only [List.drop_zero, Nat.zero_add]
      rw [← hv]
      by_cases hz : v = 0
      · rw [if_pos hz, if_pos hz]
      · rw [if_neg hz, if_neg hz]
        cases hsv : symbol_table v with
        | none => rfl
        | some sym => rfl
  refine ⟨?_, ?_, ?_⟩
  · intro h0
    rw [hmain, if_pos h0]
  · intro h0 hsym
    rw [hmain, if_neg h0, hsym]
  · intro fmt data e h
    unfold userEventFormat
    rw [h]

/-- C1 witness: streaming protocol, little endian, empty symbol table, handle 1
encoded in the argument data after the prefix character. -/
theorem C1_symbol_lookup_degrades_witness :
    ((1 : Nat) = 0 → format_symbol_string (fun _ => Option.none) .streaming .little
        (['x'] ++ '%' :: 's' :: []) [1, 0, 0, 0] = .error .invalidSymbolTableIndex) ∧
      ((1 : Nat) ≠ 0 → (fun _ => (Option.none : Option (List Char))) 1 = Option.none →
        format_symbol_string (fun _ => Option.none) .streaming .little
          (['x'] ++ '%' :: 's' :: []) [1, 0, 0, 0] = .error (.symbolLookup 1)) ∧
      (∀ fmt data e,
        format_symbol_string (fun _ => Option.none) .streaming .little fmt data =
            .error e →
          userEventFormat (fun _ => Option.none) .streaming .little fmt data =
            (fmt, [])) :=
  C1_symbol_lookup_degrades (fun _ => Option.none) .streaming .little
    ['x'] [] [1, 0, 0, 0] 1 (by decide) (by decide) (by decide)

end TraceRecorder
